import Mathlib

/-!
Shallow embedding of the `intel-8080` emulator core (`src/cpu.rs`,
`src/register.rs`).  Machine integers are modelled as `Nat` with explicit
`% 2^8` / `% 2^16` at the points where the Rust `u8`/`u16` arithmetic wraps.
Memory (`data`) and the six-register file (`registers`) are modelled as total
functions `Nat → Nat`; the register indices follow the source array
`[B, C, D, E, H, L]` (B=0, C=1, D=2, E=3, H=4, L=5).

The `Opcode` enum together with its `From<u8>` decode and the field selectors
`get_rp_num_2` / `get_dest_num` / `get_src_num` lives in `opcode.rs`, which is
not part of the sources; where those are needed they are modelled from the
spec (§4.3 opcode classifier): `dest3 = (op >> 3) & 7`, `src3 = op & 7`,
`rp2 = (op >> 4) & 3`, and the standard 8080 byte values for each family.
-/

set_option linter.unreachableTactic false
set_option linter.unusedTactic false
set_option linter.unnecessarySeqFocus false

namespace Intel8080

/-- Truncation to 8 bits (Rust `u8` wrapping arithmetic). -/
def u8 (n : Nat) : Nat := n % 256

/-- Truncation to 16 bits (Rust `u16` wrapping arithmetic). -/
def u16 (n : Nat) : Nat := n % 65536

/-- Pointwise function update, used for memory and register-file writes. -/
def updf (f : Nat → Nat) (a v : Nat) : Nat → Nat := fun x => if x = a then v else f x

/-! Flag-byte accessors, from `register.rs` (`impl Flag`).  The flag word is a
single byte; C is bit 0, bit 1 is fixed at 1 on construction, P bit 2, AC
bit 4, Z bit 6, S bit 7. -/

/-- Source `Flag::carry_flag`: `self.0 & 0b0000_0001 == 1`. -/
def carry_flag (f : Nat) : Bool := decide (f &&& 1 = 1)

/-- Source `Flag::set_carry_flag`. -/
def set_carry_flag (f : Nat) (b : Bool) : Nat :=
  if b then f ||| 1 else f &&& 0xFE

/-- Source `Flag::parity_flag`: `self.0 & 0b0000_0100 == 1 << 2`. -/
def parity_flag (f : Nat) : Bool := decide (f &&& 4 = 4)

/-- Source `Flag::set_parity_flag`. -/
def set_parity_flag (f : Nat) (b : Bool) : Nat :=
  if b then f ||| 4 else f &&& 0xFB

/-- Source `Flag::auxiliary_flag`: `self.0 & 0b0001_0000 == 1 << 4`. -/
def auxiliary_flag (f : Nat) : Bool := decide (f &&& 16 = 16)

/-- Source `Flag::set_auxiliary_carry_flag`. -/
def set_auxiliary_carry_flag (f : Nat) (b : Bool) : Nat :=
  if b then f ||| 16 else f &&& 0xEF

/-- Source `Flag::zero_flag`: `self.0 & 0b0100_0000 == 1 << 6`. -/
def zero_flag (f : Nat) : Bool := decide (f &&& 64 = 64)

/-- Source `Flag::set_zero_flag`. -/
def set_zero_flag (f : Nat) (b : Bool) : Nat :=
  if b then f ||| 64 else f &&& 0xBF

/-- Source `Flag::sign_flag`: `self.0 & 0b1000_0000 == 1 << 7`. -/
def sign_flag (f : Nat) : Bool := decide (f &&& 128 = 128)

/-- Source `Flag::set_sign_flag`. -/
def set_sign_flag (f : Nat) (b : Bool) : Nat :=
  if b then f ||| 128 else f &&& 0x7F

/-- Helper for `count_ones`: structural recursion on a fuel argument so that
the definition reduces inside the kernel.  `fuel ≥ n` makes it exact. -/
def count_ones_aux : Nat → Nat → Nat
  | 0, _ => 0
  | fuel + 1, n => if n = 0 then 0 else (n &&& 1) + count_ones_aux fuel (n / 2)

/-- Source `u8::count_ones`, used by `update_parity_flag`: the number of set bits. -/
def count_ones (n : Nat) : Nat := count_ones_aux n n

/-- CPU state, from `struct CPU` in `cpu.rs`. -/
structure CPU where
  flag : Nat
  registers : Nat → Nat
  acc : Nat
  sp : Nat
  pc : Nat
  data : Nat → Nat
  interrupted : Bool
  interrupted_addr : Nat
  halted : Bool

/-- Source `CPU::new`: flag `0b0000_0010`, registers zero, SP = memory length,
PC = 0, `interrupted` starts `true`, vector 0, not halted. -/
def CPU.new (data : Nat → Nat) (len : Nat) : CPU :=
  { flag := 2, registers := fun _ => 0, acc := 0, sp := len, pc := 0,
    data := data, interrupted := true, interrupted_addr := 0, halted := false }

/-- Source `CPU::make_address`: `(val1 << 8) | val2`. -/
def make_address (val1 val2 : Nat) : Nat := (val1 <<< 8) ||| val2

/-- Source `CPU::compose_to_u16`: `(val1 << 8) | val2`. -/
def compose_to_u16 (val1 val2 : Nat) : Nat := (val1 <<< 8) ||| val2

/-- Source `CPU::decompose_to_u8`: `((val & 0xFF00) >> 8, val & 0x00FF)`. -/
def decompose_to_u8 (val : Nat) : Nat × Nat :=
  ((val &&& 0xFF00) >>> 8, val &&& 0xFF)

/-- Source `CPU::memory_address`: the 16-bit value `(H << 8) | L`. -/
def CPU.memory_address (c : CPU) : Nat := make_address (c.registers 4) (c.registers 5)

/-- Source `CPU::register_or_memory_data`: 3-bit code, 6 = byte at HL, 7 = A. -/
def CPU.register_or_memory_data (c : CPU) (reg : Nat) : Nat :=
  if reg = 6 then c.data c.memory_address
  else if reg = 7 then c.acc
  else c.registers reg

/-- Source `CPU::set_register_or_memory_data`. -/
def CPU.set_register_or_memory_data (c : CPU) (reg v : Nat) : CPU :=
  if reg = 6 then { c with data := updf c.data c.memory_address v }
  else if reg = 7 then { c with acc := v }
  else { c with registers := updf c.registers reg v }

/-- Source `CPU::set_jump_pc`: `pc = compose(data[pc-1], data[pc-2])`. -/
def CPU.set_jump_pc (c : CPU) : CPU :=
  { c with pc := compose_to_u16 (c.data (c.pc - 1)) (c.data (c.pc - 2)) }

/-- Source `CPU::inc`: 16-bit increment of a register pair, byte by byte. -/
def pair_inc (val1 val2 : Nat) : Nat × Nat :=
  if val2 + 1 ≥ 256 then (u8 (val1 + 1), u8 (val2 + 1)) else (val1, val2 + 1)

/-- Source `CPU::dec`: 16-bit decrement of a register pair, byte by byte. -/
def pair_dec (val1 val2 : Nat) : Nat × Nat :=
  if val2 = 0 then (u8 (val1 + 255), 255) else (val1, val2 - 1)

/-- Source `CPU::update_zero_flag`. -/
def update_zero_flag (f : Nat) (val : Nat) : Nat :=
  if val = 0 then set_zero_flag f true else set_zero_flag f false

/-- Source `CPU::update_sign_flag`: sign set iff `val > 0b0111_1111`. -/
def update_sign_flag (f : Nat) (val : Nat) : Nat :=
  if val > 127 then set_sign_flag f true else set_sign_flag f false

/-- Source `CPU::update_carry_flag_with_carry`. -/
def update_carry_flag_with_carry (f : Nat) (val1 val2 carry : Nat) : Nat :=
  if val1 + val2 + carry > 255 then set_carry_flag f true else set_carry_flag f false

/-- Source `CPU::update_aux_flag`. -/
def update_aux_flag (f : Nat) (val1 val2 : Nat) : Nat :=
  set_auxiliary_carry_flag f (decide ((val1 &&& 15) + (val2 &&& 15) > 15))

/-- Source `CPU::update_aux_flag_with_carry`. -/
def update_aux_flag_with_carry (f : Nat) (val1 val2 carry : Nat) : Nat :=
  set_auxiliary_carry_flag f (decide ((val1 &&& 15) + (val2 &&& 15) + carry > 15))

/-- Source `CPU::update_parity_flag`: parity set iff `count_ones` is even. -/
def update_parity_flag (f : Nat) (val : Nat) : Nat :=
  if count_ones val &&& 1 = 0 then set_parity_flag f true else set_parity_flag f false

/-- Source `CPU::stack_push_u8`: `sp -= 1; data[sp] = val`. -/
def CPU.stack_push_u8 (c : CPU) (val : Nat) : CPU :=
  let sp := u16 (c.sp + 65535)
  { c with sp := sp, data := updf c.data sp val }

/-- Source `CPU::stack_pop_u8`: read `data[sp]`, then `sp += 1`. -/
def CPU.stack_pop_u8 (c : CPU) : Nat × CPU :=
  (c.data c.sp, { c with sp := u16 (c.sp + 1) })

/-- Source `CPU::stack_push`: push high byte, then low byte. -/
def CPU.stack_push (c : CPU) (val : Nat) : CPU :=
  let p := decompose_to_u8 val
  (c.stack_push_u8 p.1).stack_push_u8 p.2

/-- Source `CPU::stack_pop`: pop low byte, then high byte, recompose. -/
def CPU.stack_pop (c : CPU) : Nat × CPU :=
  let r1 := c.stack_pop_u8
  let r2 := r1.2.stack_pop_u8
  (compose_to_u16 r2.1 r1.1, r2.2)

/-- Source `CPU::op_return`: `pc = stack_pop()`. -/
def CPU.op_return (c : CPU) : CPU :=
  let r := c.stack_pop
  { r.2 with pc := r.1 }

/-- Source `CPU::op_call`: push (already advanced) PC, then jump to the
little-endian target read at `pc-2`, `pc-1`. -/
def CPU.op_call (c : CPU) : CPU :=
  let c1 := c.stack_push c.pc
  let val1 := c1.data (c1.pc - 2)
  let val2 := c1.data (c1.pc - 1)
  { c1 with pc := compose_to_u16 val2 val1 }

/-! Per-family bodies of `CPU::execute`, one definition per `match` arm. -/

/-- LXI arm: for rp ≠ 3 the register with index `rp*2` gets `data[pc+1]` and
index `rp*2+1` gets `data[pc+2]`; for SP the two bytes compose high-first. -/
def execLXI (c : CPU) (op : Nat) : CPU :=
  let rp := (op >>> 4) &&& 3
  let c1 :=
    if rp ≠ 3 then
      { c with
          registers :=
            updf (updf c.registers (rp * 2) (c.data (c.pc + 1))) (rp * 2 + 1)
              (c.data (c.pc + 2)) }
    else
      { c with sp := u16 ((c.data (c.pc + 1)) <<< 8 + c.data (c.pc + 2)) }
  { c1 with pc := u16 (c1.pc + 3) }

/-- STAX arm. -/
def execSTAX (c : CPU) (op : Nat) : CPU :=
  let c := { c with pc := u16 (c.pc + 1) }
  let rp := (op >>> 4) &&& 3
  let val1 := c.registers (rp * 2)
  let val2 := c.registers (rp * 2 + 1)
  { c with data := updf c.data (make_address val1 val2) c.acc }

/-- STA arm. -/
def execSTA (c : CPU) : CPU :=
  let addr := make_address (c.data (c.pc + 2)) (c.data (c.pc + 1))
  let c := { c with pc := u16 (c.pc + 3) }
  { c with data := updf c.data addr c.acc }

/-- LDAX arm. -/
def execLDAX (c : CPU) (op : Nat) : CPU :=
  let c := { c with pc := u16 (c.pc + 1) }
  let rp := (op >>> 4) &&& 3
  { c with acc := c.data (make_address (c.registers (rp * 2)) (c.registers (rp * 2 + 1))) }

/-- LDA arm. -/
def execLDA (c : CPU) : CPU :=
  let addr := make_address (c.data (c.pc + 2)) (c.data (c.pc + 1))
  let c := { c with pc := u16 (c.pc + 3) }
  { c with acc := c.data addr }

/-- INX arm. -/
def execINX (c : CPU) (op : Nat) : CPU :=
  let rp := (op >>> 4) &&& 3
  let c1 :=
    if rp ≠ 3 then
      let p := pair_inc (c.registers (rp * 2)) (c.registers (rp * 2 + 1))
      { c with registers := updf (updf c.registers (rp * 2) p.1) (rp * 2 + 1) p.2 }
    else { c with sp := u16 (c.sp + 1) }
  { c1 with pc := u16 (c1.pc + 1) }

/-- DCX arm. -/
def execDCX (c : CPU) (op : Nat) : CPU :=
  let rp := (op >>> 4) &&& 3
  let c1 :=
    if rp ≠ 3 then
      let p := pair_dec (c.registers (rp * 2)) (c.registers (rp * 2 + 1))
      { c with registers := updf (updf c.registers (rp * 2) p.1) (rp * 2 + 1) p.2 }
    else { c with sp := u16 (c.sp + 65535) }
  { c1 with pc := u16 (c1.pc + 1) }

/-- INR arm: AC from the pre-operation low nibble, then S/Z/P from result. -/
def execINR (c : CPU) (op : Nat) : CPU :=
  let reg := (op >>> 3) &&& 7
  let data0 := c.register_or_memory_data reg
  let f1 := set_auxiliary_carry_flag c.flag (decide (data0 &&& 15 = 15))
  let data1 := u8 (data0 + 1)
  let f2 := update_parity_flag (update_zero_flag (update_sign_flag f1 data1) data1) data1
  let c1 := { c with flag := f2 }
  let c2 := c1.set_register_or_memory_data reg data1
  { c2 with pc := u16 (c2.pc + 1) }

/-- DCR arm: same flag discipline as INR, with a wrapping decrement. -/
def execDCR (c : CPU) (op : Nat) : CPU :=
  let reg := (op >>> 3) &&& 7
  let data0 := c.register_or_memory_data reg
  let f1 := set_auxiliary_carry_flag c.flag (decide (data0 &&& 15 = 15))
  let data1 := u8 (data0 + 255)
  let f2 := update_parity_flag (update_zero_flag (update_sign_flag f1 data1) data1) data1
  let c1 := { c with flag := f2 }
  let c2 := c1.set_register_or_memory_data reg data1
  { c2 with pc := u16 (c2.pc + 1) }

/-- MVI arm. -/
def execMVI (c : CPU) (op : Nat) : CPU :=
  let reg := (op >>> 3) &&& 7
  let val := c.data (c.pc + 1)
  let c1 := { c with pc := u16 (c.pc + 2) }
  c1.set_register_or_memory_data reg val

/-- Source `u8::rotate_left(1)`: 8-bit rotate left. -/
def rotl8 (a : Nat) : Nat := ((a <<< 1) &&& 255) ||| (a >>> 7)

/-- Source `u8::rotate_right(1)`: 8-bit rotate right. -/
def rotr8 (a : Nat) : Nat := (a >>> 1) ||| ((a &&& 1) <<< 7)

/-- RLC arm. -/
def execRLC (c : CPU) : CPU :=
  let c := { c with pc := u16 (c.pc + 1) }
  { c with flag := set_carry_flag c.flag (decide (c.acc &&& 128 ≠ 0)),
           acc := rotl8 c.acc }

/-- RRC arm. -/
def execRRC (c : CPU) : CPU :=
  let c := { c with pc := u16 (c.pc + 1) }
  { c with flag := set_carry_flag c.flag (decide (c.acc &&& 1 ≠ 0)),
           acc := rotr8 c.acc }

/-- RAL arm, verbatim from the source: after the rotate, `b = acc | 1`,
bit 0 of the accumulator is replaced by the old carry, and the carry flag is
set to `b != 0`. -/
def execRAL (c : CPU) : CPU :=
  let c := { c with pc := u16 (c.pc + 1) }
  let acc1 := rotl8 c.acc
  let b := acc1 ||| 1
  let acc2 := if carry_flag c.flag then acc1 ||| 1 else acc1 &&& 0xFE
  { c with acc := acc2, flag := set_carry_flag c.flag (decide (b ≠ 0)) }

/-- RAR arm: after the rotate, `b = acc & 0x80`, bit 7 is replaced by the old
carry, and the carry flag is set to `b != 0`. -/
def execRAR (c : CPU) : CPU :=
  let c := { c with pc := u16 (c.pc + 1) }
  let acc1 := rotr8 c.acc
  let b := acc1 &&& 128
  let acc2 := if carry_flag c.flag then acc1 ||| 128 else acc1 &&& 0x7F
  { c with acc := acc2, flag := set_carry_flag c.flag (decide (b ≠ 0)) }

/-- DAD arm.  For rp ≠ 3: L-byte add with carry propagation into H, the carry
flag written by `overflowing_add` results (the second write overwrites the
first in the low-carry path).  For SP: HL gets `(HL + SP) as u16` and the
carry flag is not touched. -/
def execDAD (c : CPU) (op : Nat) : CPU :=
  let rp := (op >>> 4) &&& 3
  let c1 :=
    if rp ≠ 3 then
      let sum1 := c.registers 5 + c.registers (rp * 2 + 1)
      let res1 := u8 sum1
      let c' := { c with registers := updf c.registers 5 res1 }
      if sum1 ≥ 256 then
        let s2 := c'.registers (rp * 2) + 1
        let f1 := set_carry_flag c'.flag (decide (s2 ≥ 256))
        let s3 := u8 s2 + c'.registers 4
        let f2 := set_carry_flag f1 (decide (s3 ≥ 256))
        { c' with flag := f2, registers := updf c'.registers 4 (u8 s3) }
      else
        let s2 := c'.registers 4 + c'.registers (rp * 2)
        { c' with flag := set_carry_flag c'.flag (decide (s2 ≥ 256)),
                  registers := updf c'.registers 4 (u8 s2) }
    else
      let p := decompose_to_u8 (u16 (c.memory_address + c.sp))
      { c with registers := updf (updf c.registers 4 p.1) 5 p.2 }
  { c1 with pc := u16 (c1.pc + 1) }

/-- SHLD arm. -/
def execSHLD (c : CPU) : CPU :=
  let addr := make_address (c.data (c.pc + 2)) (c.data (c.pc + 1))
  let c := { c with pc := u16 (c.pc + 3) }
  { c with data := updf (updf c.data addr (c.registers 5)) (addr + 1) (c.registers 4) }

/-- LHLD arm. -/
def execLHLD (c : CPU) : CPU :=
  let addr := make_address (c.data (c.pc + 2)) (c.data (c.pc + 1))
  let c := { c with pc := u16 (c.pc + 3) }
  { c with registers := updf (updf c.registers 5 (c.data addr)) 4 (c.data (addr + 1)) }

/-- CMA arm. -/
def execCMA (c : CPU) : CPU :=
  { c with pc := u16 (c.pc + 1), acc := c.acc ^^^ 255 }

/-- CMC arm. -/
def execCMC (c : CPU) : CPU :=
  { c with pc := u16 (c.pc + 1), flag := set_carry_flag c.flag (!carry_flag c.flag) }

/-- STC arm. -/
def execSTC (c : CPU) : CPU :=
  { c with pc := u16 (c.pc + 1), flag := set_carry_flag c.flag true }

/-- DAA arm, verbatim including its nibble bookkeeping. -/
def execDAA (c : CPU) : CPU :=
  let c := { c with pc := u16 (c.pc + 1) }
  let low := c.acc &&& 15
  let c :=
    if low ≥ 10 then
      { c with acc := u8 (c.acc + 6), flag := set_auxiliary_carry_flag c.flag true }
    else if auxiliary_flag c.flag then
      { c with acc := u8 (c.acc + 6), flag := set_auxiliary_carry_flag c.flag false }
    else c
  let high := (c.acc &&& 0xF0) >>> 4
  let c :=
    if high ≥ 10 then
      { c with acc := ((high - 10) <<< 4) ||| (c.acc &&& 15),
               flag := set_carry_flag c.flag true }
    else if carry_flag c.flag then
      { c with acc := ((high + 6) <<< 4) ||| (c.acc &&& 15) }
    else c
  { c with flag :=
      update_sign_flag (update_parity_flag (update_zero_flag c.flag c.acc) c.acc) c.acc }

/-- IN arm: consumes the port byte, no other effect. -/
def execIN (c : CPU) : CPU := { c with pc := u16 (c.pc + 2) }

/-- OUT arm. -/
def execOUT (c : CPU) : CPU := { c with pc := u16 (c.pc + 2) }

/-- HLT arm. -/
def execHLT (c : CPU) : CPU := { c with pc := u16 (c.pc + 1), halted := true }

/-- EI arm. -/
def execEI (c : CPU) : CPU := { c with pc := u16 (c.pc + 1), interrupted := true }

/-- DI arm. -/
def execDI (c : CPU) : CPU := { c with pc := u16 (c.pc + 1), interrupted := false }

/-- RST arm: push the advanced PC, jump to `op & 0b0011_1000`. -/
def execRST (c : CPU) (op : Nat) : CPU :=
  let c := { c with pc := u16 (c.pc + 1) }
  let c := c.stack_push c.pc
  { c with pc := op &&& 56 }

/-- XCHG arm. -/
def execXCHG (c : CPU) : CPU :=
  let c := { c with pc := u16 (c.pc + 1) }
  { c with
      registers :=
        updf (updf (updf (updf c.registers 2 (c.registers 4)) 3 (c.registers 5))
          4 (c.registers 2)) 5 (c.registers 3) }

/-- XTHL arm: pop L', H', push H, L, then set H := H', L := L'. -/
def execXTHL (c : CPU) : CPU :=
  let c := { c with pc := u16 (c.pc + 1) }
  let r1 := c.stack_pop_u8
  let r2 := r1.2.stack_pop_u8
  let c3 := (r2.2.stack_push_u8 (c.registers 4)).stack_push_u8 (c.registers 5)
  { c3 with registers := updf (updf c3.registers 4 r2.1) 5 r1.1 }

/-- PUSH arm: registers for rp ≠ 3, otherwise A then F. -/
def execPUSH (c : CPU) (op : Nat) : CPU :=
  let c := { c with pc := u16 (c.pc + 1) }
  let rp := (op >>> 4) &&& 3
  if rp ≠ 3 then
    (c.stack_push_u8 (c.registers (rp * 2))).stack_push_u8 (c.registers (rp * 2 + 1))
  else
    (c.stack_push_u8 c.acc).stack_push_u8 c.flag

/-- POP arm: for rp = 3 the flag byte is written verbatim
(`Flag::set_value`). -/
def execPOP (c : CPU) (op : Nat) : CPU :=
  let c := { c with pc := u16 (c.pc + 1) }
  let rp := (op >>> 4) &&& 3
  if rp ≠ 3 then
    let r1 := c.stack_pop_u8
    let r2 := r1.2.stack_pop_u8
    { r2.2 with registers := updf (updf c.registers (rp * 2 + 1) r1.1) (rp * 2) r2.1 }
  else
    let r1 := c.stack_pop_u8
    let r2 := r1.2.stack_pop_u8
    { r2.2 with flag := r1.1, acc := r2.1 }

/-- ADI arm. -/
def execADI (c : CPU) : CPU :=
  let d := c.data (c.pc + 1)
  let c := { c with pc := u16 (c.pc + 2) }
  let f1 := set_carry_flag c.flag (decide (c.acc + d > 255))
  let f2 := update_aux_flag f1 c.acc d
  let a := u8 (c.acc + d)
  { c with acc := a,
           flag := update_sign_flag (update_zero_flag (update_parity_flag f2 a) a) a }

/-- ACI arm. -/
def execACI (c : CPU) : CPU :=
  let carry := (carry_flag c.flag).toNat
  let d := c.data (c.pc + 1)
  let c := { c with pc := u16 (c.pc + 2) }
  let f1 := update_carry_flag_with_carry c.flag c.acc d carry
  let f2 := update_aux_flag_with_carry f1 c.acc d carry
  let a := u8 (c.acc + d + carry)
  { c with acc := a,
           flag := update_sign_flag (update_zero_flag (update_parity_flag f2 a) a) a }

/-- SUI arm: C = borrow, AC set when there is no low-nibble borrow. -/
def execSUI (c : CPU) : CPU :=
  let d := c.data (c.pc + 1)
  let c := { c with pc := u16 (c.pc + 2) }
  let f1 := set_carry_flag c.flag (decide (c.acc < d))
  let f2 := set_auxiliary_carry_flag f1 (decide (c.acc &&& 15 ≥ d &&& 15))
  let a := u8 (c.acc + 256 - d % 256)
  { c with acc := a,
           flag := update_sign_flag (update_zero_flag (update_parity_flag f2 a) a) a }

/-- SBI arm. -/
def execSBI (c : CPU) : CPU :=
  let d := c.data (c.pc + 1)
  let c := { c with pc := u16 (c.pc + 2) }
  let carry := (carry_flag c.flag).toNat
  let f1 := set_carry_flag c.flag (decide (c.acc < d + carry))
  let f2 := set_auxiliary_carry_flag f1 (decide (c.acc &&& 15 < (d &&& 15) + carry))
  let a := u8 (c.acc + 512 - d % 256 - carry)
  { c with acc := a,
           flag := update_sign_flag (update_zero_flag (update_parity_flag f2 a) a) a }

/-- ANI arm. -/
def execANI (c : CPU) : CPU :=
  let d := c.data (c.pc + 1)
  let c := { c with pc := u16 (c.pc + 2) }
  let a := c.acc &&& d
  { c with acc := a,
           flag := update_parity_flag (update_sign_flag (update_zero_flag
             (set_carry_flag c.flag false) a) a) a }

/-- XRI arm. -/
def execXRI (c : CPU) : CPU :=
  let d := c.data (c.pc + 1)
  let c := { c with pc := u16 (c.pc + 2) }
  let a := c.acc ^^^ d
  { c with acc := a,
           flag := update_parity_flag (update_sign_flag (update_zero_flag
             (set_carry_flag c.flag false) a) a) a }

/-- ORI arm. -/
def execORI (c : CPU) : CPU :=
  let d := c.data (c.pc + 1)
  let c := { c with pc := u16 (c.pc + 2) }
  let a := c.acc ||| d
  { c with acc := a,
           flag := update_parity_flag (update_sign_flag (update_zero_flag
             (set_carry_flag c.flag false) a) a) a }

/-- CPI arm: AC is set when the low nibble of A is LESS than the low nibble
of the operand (verbatim from the source). -/
def execCPI (c : CPU) : CPU :=
  let d := c.data (c.pc + 1)
  let c := { c with pc := u16 (c.pc + 2) }
  let f1 := set_carry_flag c.flag (decide (c.acc < d))
  let f2 := set_auxiliary_carry_flag f1 (decide (c.acc &&& 15 < d &&& 15))
  let res := u8 (c.acc + 256 - d % 256)
  { c with flag := update_sign_flag (update_zero_flag (update_parity_flag f2 res) res) res }

/-- Unconditional JMP arm. -/
def execJMP (c : CPU) : CPU :=
  ({ c with pc := u16 (c.pc + 3) } : CPU).set_jump_pc

/-- Conditional jump arm: PC always advances by 3; the jump happens only when
the condition read from the flag word holds. -/
def execJcc (c : CPU) (cond : Bool) : CPU :=
  let c1 := { c with pc := u16 (c.pc + 3) }
  if cond then c1.set_jump_pc else c1

/-- Unconditional CALL arm. -/
def execCALLu (c : CPU) : CPU :=
  ({ c with pc := u16 (c.pc + 3) } : CPU).op_call

/-- Conditional call arm. -/
def execCcc (c : CPU) (cond : Bool) : CPU :=
  let c1 := { c with pc := u16 (c.pc + 3) }
  if cond then c1.op_call else c1

/-- Unconditional RET arm. -/
def execRET (c : CPU) : CPU :=
  ({ c with pc := u16 (c.pc + 1) } : CPU).op_return

/-- Conditional return arm. -/
def execRcc (c : CPU) (cond : Bool) : CPU :=
  let c1 := { c with pc := u16 (c.pc + 1) }
  if cond then c1.op_return else c1

/-- SPHL arm. -/
def execSPHL (c : CPU) : CPU :=
  { c with pc := u16 (c.pc + 1), sp := u16 c.memory_address }

/-- MOV block of the catch-all arm: when `op & 0xC0 == 0x40` and the two
register codes differ, copy source to destination. -/
def movStep (c : CPU) (op : Nat) : CPU :=
  if op &&& 192 = 64 then
    let dst := (op >>> 3) &&& 7
    let src := op &&& 7
    if dst ≠ src then c.set_register_or_memory_data dst (c.register_or_memory_data src)
    else c
  else c

/-- Eight-way ALU block of the catch-all arm, keyed on `op & 0xF8`, with the
operand selected by `op & 7`. -/
def aluStep (c : CPU) (op : Nat) : CPU :=
  let alu := op &&& 248
  let reg := op &&& 7
  let d := c.register_or_memory_data reg
  if alu = 128 then
    let f1 := update_aux_flag c.flag c.acc d
    let f2 := set_carry_flag f1 (decide (c.acc + d > 255))
    let a := u8 (c.acc + d)
    { c with acc := a,
             flag := update_parity_flag (update_sign_flag (update_zero_flag f2 a) a) a }
  else if alu = 136 then
    let carry := (carry_flag c.flag).toNat
    let f1 := update_aux_flag_with_carry c.flag c.acc d carry
    let f2 := update_carry_flag_with_carry f1 c.acc d carry
    let a := u8 (c.acc + d + carry)
    { c with acc := a,
             flag := update_parity_flag (update_sign_flag (update_zero_flag f2 a) a) a }
  else if alu = 144 then
    let f1 := set_auxiliary_carry_flag c.flag (decide (c.acc ≥ d))
    let f2 := set_carry_flag f1 (decide (c.acc < d))
    let a := u8 (c.acc + 256 - d % 256)
    { c with acc := a,
             flag := update_parity_flag (update_sign_flag (update_zero_flag f2 a) a) a }
  else if alu = 152 then
    let carry := (carry_flag c.flag).toNat
    let f1 := set_auxiliary_carry_flag c.flag (decide (c.acc &&& 15 ≥ (d &&& 15) + carry))
    let d1 := u8 (d + carry)
    let f2 := set_carry_flag f1 (decide (c.acc < d1))
    let a := u8 (c.acc + 256 - d1)
    { c with acc := a,
             flag := update_parity_flag (update_sign_flag (update_zero_flag f2 a) a) a }
  else if alu = 160 then
    let a := c.acc &&& d
    { c with acc := a,
             flag := update_parity_flag (update_sign_flag (update_zero_flag
               (set_carry_flag c.flag false) a) a) a }
  else if alu = 168 then
    let a := c.acc ^^^ d
    { c with acc := a,
             flag := update_parity_flag (update_sign_flag (update_zero_flag
               (set_carry_flag c.flag false) a) a) a }
  else if alu = 176 then
    let a := c.acc ||| d
    { c with acc := a,
             flag := update_parity_flag (update_sign_flag (update_zero_flag
               (set_carry_flag c.flag false) a) a) a }
  else if alu = 184 then
    let f1 := set_auxiliary_carry_flag c.flag (decide (c.acc ≥ d))
    let f2 := set_carry_flag f1 (decide (c.acc < d))
    let res := u8 (c.acc + 256 - d % 256)
    { c with flag := update_parity_flag (update_sign_flag (update_zero_flag f2 res) res) res }
  else c

/-- Catch-all arm of the `match`: advance PC, run the MOV block when
`op & 0xC0 == 0x40`, then the eight-way ALU block keyed on `op & 0xF8`. -/
def execOther (c : CPU) (op : Nat) : CPU :=
  aluStep (movStep { c with pc := u16 (c.pc + 1) } op) op

/-- Source `CPU::execute`, dispatching on the fetched byte.  The byte values of the
named `Opcode` variants are modelled from the spec (§4.3) as the standard
8080 encodings, since `opcode.rs` is not among the sources. -/
def execute (c : CPU) (op : Nat) : CPU :=
  match op with
  | 0x00 => { c with pc := u16 (c.pc + 1) }
  | 0x01 | 0x11 | 0x21 | 0x31 => execLXI c op
  | 0x02 | 0x12 => execSTAX c op
  | 0x32 => execSTA c
  | 0x0A | 0x1A => execLDAX c op
  | 0x3A => execLDA c
  | 0x03 | 0x13 | 0x23 | 0x33 => execINX c op
  | 0x0B | 0x1B | 0x2B | 0x3B => execDCX c op
  | 0x04 | 0x0C | 0x14 | 0x1C | 0x24 | 0x2C | 0x34 | 0x3C => execINR c op
  | 0x05 | 0x0D | 0x15 | 0x1D | 0x25 | 0x2D | 0x35 | 0x3D => execDCR c op
  | 0x06 | 0x0E | 0x16 | 0x1E | 0x26 | 0x2E | 0x36 | 0x3E => execMVI c op
  | 0x07 => execRLC c
  | 0x0F => execRRC c
  | 0x17 => execRAL c
  | 0x1F => execRAR c
  | 0x09 | 0x19 | 0x29 | 0x39 => execDAD c op
  | 0x22 => execSHLD c
  | 0x2A => execLHLD c
  | 0x27 => execDAA c
  | 0x2F => execCMA c
  | 0x37 => execSTC c
  | 0x3F => execCMC c
  | 0xDB => execIN c
  | 0xD3 => execOUT c
  | 0x76 => execHLT c
  | 0xFB => execEI c
  | 0xF3 => execDI c
  | 0xC7 | 0xCF | 0xD7 | 0xDF | 0xE7 | 0xEF | 0xF7 | 0xFF => execRST c op
  | 0xEB => execXCHG c
  | 0xE3 => execXTHL c
  | 0xC5 | 0xD5 | 0xE5 | 0xF5 => execPUSH c op
  | 0xC1 | 0xD1 | 0xE1 | 0xF1 => execPOP c op
  | 0xC6 => execADI c
  | 0xCE => execACI c
  | 0xD6 => execSUI c
  | 0xDE => execSBI c
  | 0xE6 => execANI c
  | 0xEE => execXRI c
  | 0xF6 => execORI c
  | 0xFE => execCPI c
  | 0xC3 => execJMP c
  | 0xDA => execJcc c (carry_flag c.flag)
  | 0xD2 => execJcc c (!carry_flag c.flag)
  | 0xCA => execJcc c (zero_flag c.flag)
  | 0xC2 => execJcc c (!zero_flag c.flag)
  | 0xFA => execJcc c (sign_flag c.flag)
  | 0xF2 => execJcc c (!sign_flag c.flag)
  | 0xEA => execJcc c (parity_flag c.flag)
  | 0xE2 => execJcc c (!parity_flag c.flag)
  | 0xCD => execCALLu c
  | 0xDC => execCcc c (carry_flag c.flag)
  | 0xD4 => execCcc c (!carry_flag c.flag)
  | 0xCC => execCcc c (zero_flag c.flag)
  | 0xC4 => execCcc c (!zero_flag c.flag)
  | 0xFC => execCcc c (sign_flag c.flag)
  | 0xF4 => execCcc c (!sign_flag c.flag)
  | 0xEC => execCcc c (parity_flag c.flag)
  | 0xE4 => execCcc c (!parity_flag c.flag)
  | 0xC9 => execRET c
  | 0xD8 => execRcc c (carry_flag c.flag)
  | 0xD0 => execRcc c (!carry_flag c.flag)
  | 0xC8 => execRcc c (zero_flag c.flag)
  | 0xC0 => execRcc c (!zero_flag c.flag)
  | 0xF8 => execRcc c (sign_flag c.flag)
  | 0xF0 => execRcc c (!sign_flag c.flag)
  | 0xE8 => execRcc c (parity_flag c.flag)
  | 0xE0 => execRcc c (!parity_flag c.flag)
  | 0xF9 => execSPHL c
  | _ => execOther c op

/-- Source `CPU::handle_interrupt`: acknowledge when `interrupted`, pushing PC and
jumping to the stored vector.  The halted flag is not touched. -/
def CPU.handle_interrupt (c : CPU) : CPU :=
  if c.interrupted then
    let c1 := { c with interrupted := false }
    let c2 := c1.stack_push c1.pc
    { c2 with pc := c2.interrupted_addr }
  else c

/-- Source `CPU::run_once`: a halted CPU only runs interrupt handling; otherwise one
instruction is fetched at PC and executed, then interrupt handling runs. -/
def CPU.run_once (c : CPU) : CPU :=
  if c.halted then c.handle_interrupt
  else (execute c (c.data c.pc)).handle_interrupt

/-- Source `CPU::send_interrupt`: stores the vector, nothing else. -/
def CPU.send_interrupt (c : CPU) (addr : Nat) : CPU :=
  { c with interrupted_addr := addr }

/-- Well-formed machine state: every stored quantity is in range of its Rust
integer type. -/
def CPU.Wf (c : CPU) : Prop :=
  c.flag < 256 ∧ c.acc < 256 ∧ (∀ i, c.registers i < 256) ∧
    c.sp < 65536 ∧ c.pc < 65536 ∧ (∀ a, c.data a < 256)

/-- One fetch-execute step without the interrupt epilogue, as performed
inside `CPU::run_once`. -/
def CPU.step (c : CPU) : CPU := execute c (c.data c.pc)

/-- The fixed-bit discipline of the flag word claimed by the spec: bit 1
reads as 1 and bits 3 and 5 read as 0. -/
def flagOk (f : Nat) : Prop :=
  f.testBit 1 = true ∧ f.testBit 3 = false ∧ f.testBit 5 = false

theorem carry_flag_tb (f : Nat) : carry_flag f = f.testBit 0 := by
  rw [carry_flag]
  simp [Nat.and_one_is_mod, Nat.testBit_zero]

theorem parity_flag_tb (f : Nat) : parity_flag f = f.testBit 2 := by
  have h := Nat.and_two_pow f 2
  norm_num at h
  rw [parity_flag, h]
  cases htb : f.testBit 2 <;> simp

theorem auxiliary_flag_tb (f : Nat) : auxiliary_flag f = f.testBit 4 := by
  have h := Nat.and_two_pow f 4
  norm_num at h
  rw [auxiliary_flag, h]
  cases htb : f.testBit 4 <;> simp

theorem zero_flag_tb (f : Nat) : zero_flag f = f.testBit 6 := by
  have h := Nat.and_two_pow f 6
  norm_num at h
  rw [zero_flag, h]
  cases htb : f.testBit 6 <;> simp

theorem sign_flag_tb (f : Nat) : sign_flag f = f.testBit 7 := by
  have h := Nat.and_two_pow f 7
  norm_num at h
  rw [sign_flag, h]
  cases htb : f.testBit 7 <;> simp

theorem testBit_set_carry (f : Nat) (b : Bool) (j : Nat) (hj : j < 8) :
    (set_carry_flag f b).testBit j = if j = 0 then b else f.testBit j := by
  interval_cases j <;> cases b
  all_goals (try simp [set_carry_flag, Nat.testBit_or, Nat.testBit_and])
  all_goals simp [Nat.testBit_to_div_mod]

theorem testBit_set_parity (f : Nat) (b : Bool) (j : Nat) (hj : j < 8) :
    (set_parity_flag f b).testBit j = if j = 2 then b else f.testBit j := by
  interval_cases j <;> cases b
  all_goals (try simp [set_parity_flag, Nat.testBit_or, Nat.testBit_and])
  all_goals simp [Nat.testBit_to_div_mod]

theorem testBit_set_aux (f : Nat) (b : Bool) (j : Nat) (hj : j < 8) :
    (set_auxiliary_carry_flag f b).testBit j = if j = 4 then b else f.testBit j := by
  interval_cases j <;> cases b
  all_goals (try simp [set_auxiliary_carry_flag, Nat.testBit_or, Nat.testBit_and])
  all_goals simp [Nat.testBit_to_div_mod]

theorem testBit_set_zero (f : Nat) (b : Bool) (j : Nat) (hj : j < 8) :
    (set_zero_flag f b).testBit j = if j = 6 then b else f.testBit j := by
  interval_cases j <;> cases b
  all_goals (try simp [set_zero_flag, Nat.testBit_or, Nat.testBit_and])
  all_goals simp [Nat.testBit_to_div_mod]

theorem testBit_set_sign (f : Nat) (b : Bool) (j : Nat) (hj : j < 8) :
    (set_sign_flag f b).testBit j = if j = 7 then b else f.testBit j := by
  interval_cases j <;> cases b
  all_goals (try simp [set_sign_flag, Nat.testBit_or, Nat.testBit_and])
  all_goals simp [Nat.testBit_to_div_mod]

/-! Getter-after-setter matrix for the flag byte. -/

@[simp] theorem carry_set_carry (f : Nat) (b : Bool) : carry_flag (set_carry_flag f b) = b := by
  rw [carry_flag_tb, testBit_set_carry f b 0 (by omega)]
  simp

@[simp] theorem carry_set_parity (f : Nat) (b : Bool) : carry_flag (set_parity_flag f b) = carry_flag f := by
  rw [carry_flag_tb, carry_flag_tb, testBit_set_parity f b 0 (by omega)]
  simp

@[simp] theorem carry_set_aux (f : Nat) (b : Bool) : carry_flag (set_auxiliary_carry_flag f b) = carry_flag f := by
  rw [carry_flag_tb, carry_flag_tb, testBit_set_aux f b 0 (by omega)]
  simp

@[simp] theorem carry_set_zero (f : Nat) (b : Bool) : carry_flag (set_zero_flag f b) = carry_flag f := by
  rw [carry_flag_tb, carry_flag_tb, testBit_set_zero f b 0 (by omega)]
  simp

@[simp] theorem carry_set_sign (f : Nat) (b : Bool) : carry_flag (set_sign_flag f b) = carry_flag f := by
  rw [carry_flag_tb, carry_flag_tb, testBit_set_sign f b 0 (by omega)]
  simp

@[simp] theorem parity_set_carry (f : Nat) (b : Bool) : parity_flag (set_carry_flag f b) = parity_flag f := by
  rw [parity_flag_tb, parity_flag_tb, testBit_set_carry f b 2 (by omega)]
  simp

@[simp] theorem parity_set_parity (f : Nat) (b : Bool) : parity_flag (set_parity_flag f b) = b := by
  rw [parity_flag_tb, testBit_set_parity f b 2 (by omega)]
  simp

@[simp] theorem parity_set_aux (f : Nat) (b : Bool) : parity_flag (set_auxiliary_carry_flag f b) = parity_flag f := by
  rw [parity_flag_tb, parity_flag_tb, testBit_set_aux f b 2 (by omega)]
  simp

@[simp] theorem parity_set_zero (f : Nat) (b : Bool) : parity_flag (set_zero_flag f b) = parity_flag f := by
  rw [parity_flag_tb, parity_flag_tb, testBit_set_zero f b 2 (by omega)]
  simp

@[simp] theorem parity_set_sign (f : Nat) (b : Bool) : parity_flag (set_sign_flag f b) = parity_flag f := by
  rw [parity_flag_tb, parity_flag_tb, testBit_set_sign f b 2 (by omega)]
  simp

@[simp] theorem aux_set_carry (f : Nat) (b : Bool) : auxiliary_flag (set_carry_flag f b) = auxiliary_flag f := by
  rw [auxiliary_flag_tb, auxiliary_flag_tb, testBit_set_carry f b 4 (by omega)]
  simp

@[simp] theorem aux_set_parity (f : Nat) (b : Bool) : auxiliary_flag (set_parity_flag f b) = auxiliary_flag f := by
  rw [auxiliary_flag_tb, auxiliary_flag_tb, testBit_set_parity f b 4 (by omega)]
  simp

@[simp] theorem aux_set_aux (f : Nat) (b : Bool) : auxiliary_flag (set_auxiliary_carry_flag f b) = b := by
  rw [auxiliary_flag_tb, testBit_set_aux f b 4 (by omega)]
  simp

@[simp] theorem aux_set_zero (f : Nat) (b : Bool) : auxiliary_flag (set_zero_flag f b) = auxiliary_flag f := by
  rw [auxiliary_flag_tb, auxiliary_flag_tb, testBit_set_zero f b 4 (by omega)]
  simp

@[simp] theorem aux_set_sign (f : Nat) (b : Bool) : auxiliary_flag (set_sign_flag f b) = auxiliary_flag f := by
  rw [auxiliary_flag_tb, auxiliary_flag_tb, testBit_set_sign f b 4 (by omega)]
  simp

@[simp] theorem zero_set_carry (f : Nat) (b : Bool) : zero_flag (set_carry_flag f b) = zero_flag f := by
  rw [zero_flag_tb, zero_flag_tb, testBit_set_carry f b 6 (by omega)]
  simp

@[simp] theorem zero_set_parity (f : Nat) (b : Bool) : zero_flag (set_parity_flag f b) = zero_flag f := by
  rw [zero_flag_tb, zero_flag_tb, testBit_set_parity f b 6 (by omega)]
  simp

@[simp] theorem zero_set_aux (f : Nat) (b : Bool) : zero_flag (set_auxiliary_carry_flag f b) = zero_flag f := by
  rw [zero_flag_tb, zero_flag_tb, testBit_set_aux f b 6 (by omega)]
  simp

@[simp] theorem zero_set_zero (f : Nat) (b : Bool) : zero_flag (set_zero_flag f b) = b := by
  rw [zero_flag_tb, testBit_set_zero f b 6 (by omega)]
  simp

@[simp] theorem zero_set_sign (f : Nat) (b : Bool) : zero_flag (set_sign_flag f b) = zero_flag f := by
  rw [zero_flag_tb, zero_flag_tb, testBit_set_sign f b 6 (by omega)]
  simp

@[simp] theorem sign_set_carry (f : Nat) (b : Bool) : sign_flag (set_carry_flag f b) = sign_flag f := by
  rw [sign_flag_tb, sign_flag_tb, testBit_set_carry f b 7 (by omega)]
  simp

@[simp] theorem sign_set_parity (f : Nat) (b : Bool) : sign_flag (set_parity_flag f b) = sign_flag f := by
  rw [sign_flag_tb, sign_flag_tb, testBit_set_parity f b 7 (by omega)]
  simp

@[simp] theorem sign_set_aux (f : Nat) (b : Bool) : sign_flag (set_auxiliary_carry_flag f b) = sign_flag f := by
  rw [sign_flag_tb, sign_flag_tb, testBit_set_aux f b 7 (by omega)]
  simp

@[simp] theorem sign_set_zero (f : Nat) (b : Bool) : sign_flag (set_zero_flag f b) = sign_flag f := by
  rw [sign_flag_tb, sign_flag_tb, testBit_set_zero f b 7 (by omega)]
  simp

@[simp] theorem sign_set_sign (f : Nat) (b : Bool) : sign_flag (set_sign_flag f b) = b := by
  rw [sign_flag_tb, testBit_set_sign f b 7 (by omega)]
  simp

/-! The fixed bits 1, 3, 5 are preserved by every setter. -/

@[simp] theorem flagOk_set_carry (f : Nat) (b : Bool) : flagOk (set_carry_flag f b) ↔ flagOk f := by
  unfold flagOk
  rw [testBit_set_carry f b 1 (by omega), testBit_set_carry f b 3 (by omega), testBit_set_carry f b 5 (by omega)]
  simp

@[simp] theorem flagOk_set_parity (f : Nat) (b : Bool) : flagOk (set_parity_flag f b) ↔ flagOk f := by
  unfold flagOk
  rw [testBit_set_parity f b 1 (by omega), testBit_set_parity f b 3 (by omega), testBit_set_parity f b 5 (by omega)]
  simp

@[simp] theorem flagOk_set_aux (f : Nat) (b : Bool) : flagOk (set_auxiliary_carry_flag f b) ↔ flagOk f := by
  unfold flagOk
  rw [testBit_set_aux f b 1 (by omega), testBit_set_aux f b 3 (by omega), testBit_set_aux f b 5 (by omega)]
  simp

@[simp] theorem flagOk_set_zero (f : Nat) (b : Bool) : flagOk (set_zero_flag f b) ↔ flagOk f := by
  unfold flagOk
  rw [testBit_set_zero f b 1 (by omega), testBit_set_zero f b 3 (by omega), testBit_set_zero f b 5 (by omega)]
  simp

@[simp] theorem flagOk_set_sign (f : Nat) (b : Bool) : flagOk (set_sign_flag f b) ↔ flagOk f := by
  unfold flagOk
  rw [testBit_set_sign f b 1 (by omega), testBit_set_sign f b 3 (by omega), testBit_set_sign f b 5 (by omega)]
  simp

/-! Getter and fixed-bit behaviour of the derived update helpers. -/

@[simp] theorem zero_update_zero (f v : Nat) : zero_flag (update_zero_flag f v) = decide (v = 0) := by
  unfold update_zero_flag
  split <;> simp_all

@[simp] theorem sign_update_sign (f v : Nat) : sign_flag (update_sign_flag f v) = decide (v > 127) := by
  unfold update_sign_flag
  split <;> simp_all

@[simp] theorem parity_update_parity (f v : Nat) :
    parity_flag (update_parity_flag f v) = decide (count_ones v &&& 1 = 0) := by
  unfold update_parity_flag
  split <;> simp_all

@[simp] theorem carry_update_carry_with (f v1 v2 cy : Nat) :
    carry_flag (update_carry_flag_with_carry f v1 v2 cy) = decide (v1 + v2 + cy > 255) := by
  unfold update_carry_flag_with_carry
  split <;> simp_all

@[simp] theorem aux_update_aux (f v1 v2 : Nat) :
    auxiliary_flag (update_aux_flag f v1 v2) = decide ((v1 &&& 15) + (v2 &&& 15) > 15) := by
  unfold update_aux_flag
  simp

@[simp] theorem aux_update_aux_with (f v1 v2 cy : Nat) :
    auxiliary_flag (update_aux_flag_with_carry f v1 v2 cy) =
      decide ((v1 &&& 15) + (v2 &&& 15) + cy > 15) := by
  unfold update_aux_flag_with_carry
  simp

@[simp] theorem carry_zero_flag (f v : Nat) : carry_flag (update_zero_flag f v) = carry_flag f := by
  unfold update_zero_flag
  first
  | (split <;> simp)
  | simp

@[simp] theorem parity_zero_flag (f v : Nat) : parity_flag (update_zero_flag f v) = parity_flag f := by
  unfold update_zero_flag
  first
  | (split <;> simp)
  | simp

@[simp] theorem aux_zero_flag (f v : Nat) : auxiliary_flag (update_zero_flag f v) = auxiliary_flag f := by
  unfold update_zero_flag
  first
  | (split <;> simp)
  | simp

@[simp] theorem sign_zero_flag (f v : Nat) : sign_flag (update_zero_flag f v) = sign_flag f := by
  unfold update_zero_flag
  first
  | (split <;> simp)
  | simp

@[simp] theorem carry_sign_flag (f v : Nat) : carry_flag (update_sign_flag f v) = carry_flag f := by
  unfold update_sign_flag
  first
  | (split <;> simp)
  | simp

@[simp] theorem parity_sign_flag (f v : Nat) : parity_flag (update_sign_flag f v) = parity_flag f := by
  unfold update_sign_flag
  first
  | (split <;> simp)
  | simp

@[simp] theorem aux_sign_flag (f v : Nat) : auxiliary_flag (update_sign_flag f v) = auxiliary_flag f := by
  unfold update_sign_flag
  first
  | (split <;> simp)
  | simp

@[simp] theorem zero_sign_flag (f v : Nat) : zero_flag (update_sign_flag f v) = zero_flag f := by
  unfold update_sign_flag
  first
  | (split <;> simp)
  | simp

@[simp] theorem carry_parity_flag (f v : Nat) : carry_flag (update_parity_flag f v) = carry_flag f := by
  unfold update_parity_flag
  first
  | (split <;> simp)
  | simp

@[simp] theorem aux_parity_flag (f v : Nat) : auxiliary_flag (update_parity_flag f v) = auxiliary_flag f := by
  unfold update_parity_flag
  first
  | (split <;> simp)
  | simp

@[simp] theorem zero_parity_flag (f v : Nat) : zero_flag (update_parity_flag f v) = zero_flag f := by
  unfold update_parity_flag
  first
  | (split <;> simp)
  | simp

@[simp] theorem sign_parity_flag (f v : Nat) : sign_flag (update_parity_flag f v) = sign_flag f := by
  unfold update_parity_flag
  first
  | (split <;> simp)
  | simp

@[simp] theorem parity_carry_flag_with_carry (f v1 v2 cy : Nat) : parity_flag (update_carry_flag_with_carry f v1 v2 cy) = parity_flag f := by
  unfold update_carry_flag_with_carry
  first
  | (split <;> simp)
  | simp

@[simp] theorem aux_carry_flag_with_carry (f v1 v2 cy : Nat) : auxiliary_flag (update_carry_flag_with_carry f v1 v2 cy) = auxiliary_flag f := by
  unfold update_carry_flag_with_carry
  first
  | (split <;> simp)
  | simp

@[simp] theorem zero_carry_flag_with_carry (f v1 v2 cy : Nat) : zero_flag (update_carry_flag_with_carry f v1 v2 cy) = zero_flag f := by
  unfold update_carry_flag_with_carry
  first
  | (split <;> simp)
  | simp

@[simp] theorem sign_carry_flag_with_carry (f v1 v2 cy : Nat) : sign_flag (update_carry_flag_with_carry f v1 v2 cy) = sign_flag f := by
  unfold update_carry_flag_with_carry
  first
  | (split <;> simp)
  | simp

@[simp] theorem carry_aux_flag (f v1 v2 : Nat) : carry_flag (update_aux_flag f v1 v2) = carry_flag f := by
  unfold update_aux_flag
  first
  | (split <;> simp)
  | simp

@[simp] theorem parity_aux_flag (f v1 v2 : Nat) : parity_flag (update_aux_flag f v1 v2) = parity_flag f := by
  unfold update_aux_flag
  first
  | (split <;> simp)
  | simp

@[simp] theorem zero_aux_flag (f v1 v2 : Nat) : zero_flag (update_aux_flag f v1 v2) = zero_flag f := by
  unfold update_aux_flag
  first
  | (split <;> simp)
  | simp

@[simp] theorem sign_aux_flag (f v1 v2 : Nat) : sign_flag (update_aux_flag f v1 v2) = sign_flag f := by
  unfold update_aux_flag
  first
  | (split <;> simp)
  | simp

@[simp] theorem carry_aux_with (f v1 v2 cy : Nat) : carry_flag (update_aux_flag_with_carry f v1 v2 cy) = carry_flag f := by
  unfold update_aux_flag_with_carry
  first
  | (split <;> simp)
  | simp

@[simp] theorem parity_aux_with (f v1 v2 cy : Nat) : parity_flag (update_aux_flag_with_carry f v1 v2 cy) = parity_flag f := by
  unfold update_aux_flag_with_carry
  first
  | (split <;> simp)
  | simp

@[simp] theorem zero_aux_with (f v1 v2 cy : Nat) : zero_flag (update_aux_flag_with_carry f v1 v2 cy) = zero_flag f := by
  unfold update_aux_flag_with_carry
  first
  | (split <;> simp)
  | simp

@[simp] theorem sign_aux_with (f v1 v2 cy : Nat) : sign_flag (update_aux_flag_with_carry f v1 v2 cy) = sign_flag f := by
  unfold update_aux_flag_with_carry
  first
  | (split <;> simp)
  | simp

@[simp] theorem flagOk_zero_flag (f v : Nat) : flagOk (update_zero_flag f v) ↔ flagOk f := by
  unfold update_zero_flag
  first
  | (split <;> simp)
  | simp

@[simp] theorem flagOk_sign_flag (f v : Nat) : flagOk (update_sign_flag f v) ↔ flagOk f := by
  unfold update_sign_flag
  first
  | (split <;> simp)
  | simp

@[simp] theorem flagOk_parity_flag (f v : Nat) : flagOk (update_parity_flag f v) ↔ flagOk f := by
  unfold update_parity_flag
  first
  | (split <;> simp)
  | simp

@[simp] theorem flagOk_carry_flag_with_carry (f v1 v2 cy : Nat) : flagOk (update_carry_flag_with_carry f v1 v2 cy) ↔ flagOk f := by
  unfold update_carry_flag_with_carry
  first
  | (split <;> simp)
  | simp

@[simp] theorem flagOk_aux_flag (f v1 v2 : Nat) : flagOk (update_aux_flag f v1 v2) ↔ flagOk f := by
  unfold update_aux_flag
  first
  | (split <;> simp)
  | simp

@[simp] theorem flagOk_aux_with (f v1 v2 cy : Nat) : flagOk (update_aux_flag_with_carry f v1 v2 cy) ↔ flagOk f := by
  unfold update_aux_flag_with_carry
  first
  | (split <;> simp)
  | simp

/-! Projection lemmas for the state-threading helpers. -/

@[simp] theorem set_rm_flag (c : CPU) (reg v : Nat) :
    (c.set_register_or_memory_data reg v).flag = c.flag := by
  unfold CPU.set_register_or_memory_data
  split
  · rfl
  · split <;> rfl

@[simp] theorem set_rm_pc (c : CPU) (reg v : Nat) :
    (c.set_register_or_memory_data reg v).pc = c.pc := by
  unfold CPU.set_register_or_memory_data
  split
  · rfl
  · split <;> rfl

@[simp] theorem set_rm_sp (c : CPU) (reg v : Nat) :
    (c.set_register_or_memory_data reg v).sp = c.sp := by
  unfold CPU.set_register_or_memory_data
  split
  · rfl
  · split <;> rfl

@[simp] theorem set_rm_interrupted (c : CPU) (reg v : Nat) :
    (c.set_register_or_memory_data reg v).interrupted = c.interrupted := by
  unfold CPU.set_register_or_memory_data
  split
  · rfl
  · split <;> rfl

@[simp] theorem set_rm_halted (c : CPU) (reg v : Nat) :
    (c.set_register_or_memory_data reg v).halted = c.halted := by
  unfold CPU.set_register_or_memory_data
  split
  · rfl
  · split <;> rfl

/-- Collapsed form of a 16-bit stack push: SP drops by 2 (mod 2^16), the high
byte lands at `sp-1` and the low byte at `sp-2`. -/
theorem stack_push_eq (c : CPU) (v : Nat) :
    c.stack_push v =
      { c with
          sp := u16 (c.sp + 65534)
          data := updf (updf c.data (u16 (c.sp + 65535)) ((v &&& 0xFF00) >>> 8))
            (u16 (c.sp + 65534)) (v &&& 0xFF) } := by
  have ha : u16 (u16 (c.sp + 65535) + 65535) = u16 (c.sp + 65534) := by
    unfold u16
    omega
  cases c
  simp [CPU.stack_push, CPU.stack_push_u8, decompose_to_u8, ha]

/-! Concrete machine states used to evaluate the code on specific inputs. -/

/-- State with HL = 0xFFFF and SP = 1, memory holding DAD SP at 0. -/
def cexDadSp : CPU :=
  { flag := 2, registers := fun i => if i = 4 then 0xFF else if i = 5 then 0xFF else 0,
    acc := 0, sp := 1, pc := 0, data := fun a => if a = 0 then 0x39 else 0,
    interrupted := false, interrupted_addr := 0, halted := false }

/-- State with HL = 0x00FF and BC = 0xFF01, memory holding DAD B at 0. -/
def cexDadB : CPU :=
  { flag := 2,
    registers := fun i => if i = 0 then 0xFF else if i = 1 then 0x01 else
      if i = 5 then 0xFF else 0,
    acc := 0, sp := 8, pc := 0, data := fun a => if a = 0 then 0x09 else 0,
    interrupted := false, interrupted_addr := 0, halted := false }

/-- C1: the claim says DAD sets C exactly when HL + rp carries out of bit 15.
The code falsifies it twice: DAD SP (0x39) never touches C, and DAD B loses
the carry when the pair-high byte is 0xFF and the low-byte add carries (the
first `set_carry_flag` is overwritten).  Both runs below have a true 16-bit
carry, produce the correct wrapped HL, and leave C clear. -/
theorem dad_carry_code_bug :
    (65536 ≤ make_address (cexDadSp.registers 4) (cexDadSp.registers 5) + cexDadSp.sp ∧
      carry_flag (execute cexDadSp 0x39).flag = false ∧
      (execute cexDadSp 0x39).registers 4 = 0 ∧ (execute cexDadSp 0x39).registers 5 = 0) ∧
    (65536 ≤ make_address (cexDadB.registers 4) (cexDadB.registers 5) +
        make_address (cexDadB.registers 0) (cexDadB.registers 1) ∧
      carry_flag (execute cexDadB 0x09).flag = false ∧
      (execute cexDadB 0x09).registers 4 = 0 ∧ (execute cexDadB 0x09).registers 5 = 0) := by
  decide

/-- State with A = 0 and carry clear, memory holding RAL at 0. -/
def cexRal : CPU :=
  { flag := 2, registers := fun _ => 0, acc := 0, sp := 4, pc := 0,
    data := fun a => if a = 0 then 0x17 else 0,
    interrupted := false, interrupted_addr := 0, halted := false }

/-- C2: the claim says RAL sets the new carry to the old bit 7 of A.  With
A = 0 (bit 7 clear) and carry clear, the code sets carry to 1 anyway,
because its condition `(acc | 1) != 0` is always true.  The accumulator part
of the rotate (new A0 = old C) does hold on this input. -/
theorem ral_carry_code_bug :
    cexRal.acc &&& 128 = 0 ∧ carry_flag cexRal.flag = false ∧
      carry_flag (execute cexRal 0x17).flag = true ∧ (execute cexRal 0x17).acc = 0 := by
  decide

/-- State whose memory holds LXI B, 0xCDAB (little-endian operand bytes
0xAB, 0xCD). -/
def cexLxi : CPU :=
  { flag := 2, registers := fun _ => 0, acc := 0, sp := 8, pc := 0,
    data := fun a => if a = 1 then 0xAB else if a = 2 then 0xCD else if a = 0 then 0x01 else 0,
    interrupted := false, interrupted_addr := 0, halted := false }

/-- C3 counterexample: the claim says the high register of the pair receives
`mem[PC+2]`.  Executing LXI B here puts `mem[PC+1]` = 0xAB into B (the high
register) and `mem[PC+2]` = 0xCD into C, refuting the claim. -/
theorem lxi_byte_order_cex :
    (execute cexLxi 0x01).registers 0 ≠ cexLxi.data (cexLxi.pc + 2) ∧
      (execute cexLxi 0x01).registers 0 = 0xAB ∧
      (execute cexLxi 0x01).registers 1 = 0xCD := by
  decide

/-- C3 amended: LXI B/D/H loads the destination pair high-register-first from
the instruction stream: the HIGH register of the pair receives `mem[PC+1]`
and the LOW register receives `mem[PC+2]` (byte-swapped relative to the
architectural little-endian rule), and PC advances by 3. -/
theorem lxi_loads_swapped (c : CPU) (op : Nat)
    (hop : op ∈ [0x01, 0x11, 0x21]) :
    (execute c op).registers (((op >>> 4) &&& 3) * 2) = c.data (c.pc + 1) ∧
      (execute c op).registers (((op >>> 4) &&& 3) * 2 + 1) = c.data (c.pc + 2) ∧
      (execute c op).pc = u16 (c.pc + 3) := by
  fin_cases hop <;>
    simp [show ∀ d, execute d (0x01 : Nat) = execLXI d 0x01 from fun _ => rfl,
      show ∀ d, execute d (0x11 : Nat) = execLXI d 0x11 from fun _ => rfl,
      show ∀ d, execute d (0x21 : Nat) = execLXI d 0x21 from fun _ => rfl,
      execLXI, updf, show (0 : Nat) &&& 3 = 0 from rfl, show (1 : Nat) &&& 3 = 1 from rfl,
      show (2 : Nat) &&& 3 = 2 from rfl]

/-- C3 witness: the amended statement evaluated on `cexLxi` with LXI B. -/
theorem lxi_loads_swapped_witness :
    (execute cexLxi 0x01).registers 0 = cexLxi.data (cexLxi.pc + 1) ∧
      (execute cexLxi 0x01).registers 1 = cexLxi.data (cexLxi.pc + 2) ∧
      (execute cexLxi 0x01).pc = u16 (cexLxi.pc + 3) := by
  have h := lxi_loads_swapped cexLxi 0x01 (by decide)
  simpa using h


/-- The catch-all ALU block: SUB and CMP (alu codes 0x90 and 0xB8) both set
AC from the full-byte comparison `acc >= data`. -/
theorem execOther_sub_cmp_aux (c : CPU) (op : Nat)
    (hmov : ¬ (op &&& 192 = 64)) (halu : op &&& 248 = 144 ∨ op &&& 248 = 184) :
    auxiliary_flag (execOther c op).flag =
      decide (c.register_or_memory_data (op &&& 7) ≤ c.acc) := by
  unfold execOther aluStep movStep
  rcases halu with h | h <;>
    simp [hmov, h, CPU.register_or_memory_data, CPU.memory_address, ge_iff_le]

/-- State with A = 0x10 and B = 0x01; memory holds a CPI operand 0x01 at
address 1. -/
def cexSubAux : CPU :=
  { flag := 2, registers := fun i => if i = 0 then 0x01 else 0,
    acc := 0x10, sp := 8, pc := 0,
    data := fun a => if a = 1 then 0x01 else 0,
    interrupted := false, interrupted_addr := 0, halted := false }

/-- C4 counterexample: the claim says SUB, CMP and CPI set AC iff
`(A & 0xF) ≥ (x & 0xF)`.  With A = 0x10 and x = 0x01 the low nibbles give
0 ≥ 1 = false, so the claim demands AC clear; the code sets AC on SUB B
(full-byte `A >= x`), on CMP B, and on CPI (inverted nibble test). -/
theorem sub_cmp_cpi_aux_cex :
    cexSubAux.acc &&& 15 < cexSubAux.registers 0 &&& 15 ∧
      auxiliary_flag (execute cexSubAux 0x90).flag = true ∧
      auxiliary_flag (execute cexSubAux 0xB8).flag = true ∧
      cexSubAux.acc &&& 15 < cexSubAux.data (cexSubAux.pc + 1) &&& 15 ∧
      auxiliary_flag (execute cexSubAux 0xFE).flag = true := by
  decide

/-- C4 amended: the register/M forms of SUB and CMP set AC iff `A ≥ x` as
full bytes (no borrow out of bit 7), while CPI sets AC iff
`(A & 0xF) < (x & 0xF)`; only SUI uses the nibble rule the claim states. -/
theorem sub_cmp_cpi_aux_amended (c : CPU) :
    (∀ op ∈ [0x90, 0x91, 0x92, 0x93, 0x94, 0x95, 0x96, 0x97,
             0xB8, 0xB9, 0xBA, 0xBB, 0xBC, 0xBD, 0xBE, 0xBF],
      auxiliary_flag (execute c op).flag =
        decide (c.register_or_memory_data (op &&& 7) ≤ c.acc)) ∧
      auxiliary_flag (execute c 0xFE).flag =
        decide (c.acc &&& 15 < c.data (c.pc + 1) &&& 15) := by
  constructor
  · intro op hop
    fin_cases hop <;> exact execOther_sub_cmp_aux c _ (by decide) (by decide)
  · simp [show ∀ d, execute d (0xFE : Nat) = execCPI d from fun _ => rfl, execCPI]

/-- C4 witness: the amended SUB rule applied at `cexSubAux` with SUB B. -/
theorem sub_cmp_cpi_aux_amended_witness :
    auxiliary_flag (execute cexSubAux 0x90).flag =
      decide (cexSubAux.register_or_memory_data (0x90 &&& 7) ≤ cexSubAux.acc) :=
  (sub_cmp_cpi_aux_amended cexSubAux).1 0x90 (by decide)

/-- Flag outcome of the INR arm, for any destination code. -/
theorem execINR_flags (c : CPU) (op : Nat) :
    carry_flag (execINR c op).flag = carry_flag c.flag ∧
      auxiliary_flag (execINR c op).flag =
        decide (c.register_or_memory_data ((op >>> 3) &&& 7) &&& 15 = 15) ∧
      zero_flag (execINR c op).flag =
        decide (u8 (c.register_or_memory_data ((op >>> 3) &&& 7) + 1) = 0) ∧
      sign_flag (execINR c op).flag =
        decide (u8 (c.register_or_memory_data ((op >>> 3) &&& 7) + 1) > 127) ∧
      parity_flag (execINR c op).flag =
        decide (count_ones (u8 (c.register_or_memory_data ((op >>> 3) &&& 7) + 1)) &&& 1 = 0) := by
  unfold execINR
  simp

/-- Flag outcome of the DCR arm, for any destination code. -/
theorem execDCR_flags (c : CPU) (op : Nat) :
    carry_flag (execDCR c op).flag = carry_flag c.flag ∧
      auxiliary_flag (execDCR c op).flag =
        decide (c.register_or_memory_data ((op >>> 3) &&& 7) &&& 15 = 15) ∧
      zero_flag (execDCR c op).flag =
        decide (u8 (c.register_or_memory_data ((op >>> 3) &&& 7) + 255) = 0) ∧
      sign_flag (execDCR c op).flag =
        decide (u8 (c.register_or_memory_data ((op >>> 3) &&& 7) + 255) > 127) ∧
      parity_flag (execDCR c op).flag =
        decide (count_ones (u8 (c.register_or_memory_data ((op >>> 3) &&& 7) + 255)) &&& 1 = 0) := by
  unfold execDCR
  simp

/-- C7: every INR and DCR opcode updates S, Z, P from the wrapped result,
sets AC exactly when the low nibble of the pre-operation operand is 0xF, and
leaves the carry flag unchanged. -/
theorem inr_dcr_flag_discipline (c : CPU) (op : Nat) :
    (op ∈ [0x04, 0x0C, 0x14, 0x1C, 0x24, 0x2C, 0x34, 0x3C] →
      carry_flag (execute c op).flag = carry_flag c.flag ∧
        auxiliary_flag (execute c op).flag =
          decide (c.register_or_memory_data ((op >>> 3) &&& 7) &&& 15 = 15) ∧
        zero_flag (execute c op).flag =
          decide (u8 (c.register_or_memory_data ((op >>> 3) &&& 7) + 1) = 0) ∧
        sign_flag (execute c op).flag =
          decide (u8 (c.register_or_memory_data ((op >>> 3) &&& 7) + 1) > 127) ∧
        parity_flag (execute c op).flag =
          decide (count_ones (u8 (c.register_or_memory_data ((op >>> 3) &&& 7) + 1)) &&& 1 = 0)) ∧
    (op ∈ [0x05, 0x0D, 0x15, 0x1D, 0x25, 0x2D, 0x35, 0x3D] →
      carry_flag (execute c op).flag = carry_flag c.flag ∧
        auxiliary_flag (execute c op).flag =
          decide (c.register_or_memory_data ((op >>> 3) &&& 7) &&& 15 = 15) ∧
        zero_flag (execute c op).flag =
          decide (u8 (c.register_or_memory_data ((op >>> 3) &&& 7) + 255) = 0) ∧
        sign_flag (execute c op).flag =
          decide (u8 (c.register_or_memory_data ((op >>> 3) &&& 7) + 255) > 127) ∧
        parity_flag (execute c op).flag =
          decide (count_ones (u8 (c.register_or_memory_data ((op >>> 3) &&& 7) + 255)) &&& 1 = 0)) := by
  constructor
  · intro hop
    fin_cases hop <;> exact execINR_flags c _
  · intro hop
    fin_cases hop <;> exact execDCR_flags c _

/-- C7 witness: INR C on a state with C = 0x99 and carry clear. -/
theorem inr_dcr_flag_discipline_witness :
    carry_flag (execute cexSubAux 0x0C).flag = carry_flag cexSubAux.flag ∧
      auxiliary_flag (execute cexSubAux 0x0C).flag =
        decide (cexSubAux.register_or_memory_data ((0x0C >>> 3) &&& 7) &&& 15 = 15) ∧
      zero_flag (execute cexSubAux 0x0C).flag =
        decide (u8 (cexSubAux.register_or_memory_data ((0x0C >>> 3) &&& 7) + 1) = 0) ∧
      sign_flag (execute cexSubAux 0x0C).flag =
        decide (u8 (cexSubAux.register_or_memory_data ((0x0C >>> 3) &&& 7) + 1) > 127) ∧
      parity_flag (execute cexSubAux 0x0C).flag =
        decide (count_ones (u8 (cexSubAux.register_or_memory_data ((0x0C >>> 3) &&& 7) + 1)) &&& 1 = 0) :=
  (inr_dcr_flag_discipline cexSubAux 0x0C).1 (by decide)

/-- Condition selector for the conditional jump/call/return families, decoded
from bits 3-5 of the opcode (spec classifier): NZ Z NC C PO PE P M. -/
def branch_cond (op f : Nat) : Bool :=
  match (op >>> 3) &&& 7 with
  | 0 => !zero_flag f
  | 1 => zero_flag f
  | 2 => !carry_flag f
  | 3 => carry_flag f
  | 4 => !parity_flag f
  | 5 => parity_flag f
  | 6 => !sign_flag f
  | _ => sign_flag f

/-- C9: a conditional jump or call whose condition is false advances PC by
exactly 3, a conditional return by exactly 1, and nothing else in the state
changes. -/
theorem cond_false_frame (c : CPU) (op : Nat) :
    (op ∈ [0xc2, 0xca, 0xd2, 0xda, 0xe2, 0xea, 0xf2, 0xfa] → branch_cond op c.flag = false →
      execute c op = { c with pc := u16 (c.pc + 3) }) ∧
    (op ∈ [0xc4, 0xcc, 0xd4, 0xdc, 0xe4, 0xec, 0xf4, 0xfc] → branch_cond op c.flag = false →
      execute c op = { c with pc := u16 (c.pc + 3) }) ∧
    (op ∈ [0xc0, 0xc8, 0xd0, 0xd8, 0xe0, 0xe8, 0xf0, 0xf8] → branch_cond op c.flag = false →
      execute c op = { c with pc := u16 (c.pc + 1) }) := by
  refine ⟨fun hop hcond => ?_, fun hop hcond => ?_, fun hop hcond => ?_⟩
  · fin_cases hop
    · have hb : (!zero_flag c.flag) = false := hcond
      show execJcc c (!zero_flag c.flag) = _
      rw [hb]
      rfl
    · have hb : (zero_flag c.flag) = false := hcond
      show execJcc c (zero_flag c.flag) = _
      rw [hb]
      rfl
    · have hb : (!carry_flag c.flag) = false := hcond
      show execJcc c (!carry_flag c.flag) = _
      rw [hb]
      rfl
    · have hb : (carry_flag c.flag) = false := hcond
      show execJcc c (carry_flag c.flag) = _
      rw [hb]
      rfl
    · have hb : (!parity_flag c.flag) = false := hcond
      show execJcc c (!parity_flag c.flag) = _
      rw [hb]
      rfl
    · have hb : (parity_flag c.flag) = false := hcond
      show execJcc c (parity_flag c.flag) = _
      rw [hb]
      rfl
    · have hb : (!sign_flag c.flag) = false := hcond
      show execJcc c (!sign_flag c.flag) = _
      rw [hb]
      rfl
    · have hb : (sign_flag c.flag) = false := hcond
      show execJcc c (sign_flag c.flag) = _
      rw [hb]
      rfl
  · fin_cases hop
    · have hb : (!zero_flag c.flag) = false := hcond
      show execCcc c (!zero_flag c.flag) = _
      rw [hb]
      rfl
    · have hb : (zero_flag c.flag) = false := hcond
      show execCcc c (zero_flag c.flag) = _
      rw [hb]
      rfl
    · have hb : (!carry_flag c.flag) = false := hcond
      show execCcc c (!carry_flag c.flag) = _
      rw [hb]
      rfl
    · have hb : (carry_flag c.flag) = false := hcond
      show execCcc c (carry_flag c.flag) = _
      rw [hb]
      rfl
    · have hb : (!parity_flag c.flag) = false := hcond
      show execCcc c (!parity_flag c.flag) = _
      rw [hb]
      rfl
    · have hb : (parity_flag c.flag) = false := hcond
      show execCcc c (parity_flag c.flag) = _
      rw [hb]
      rfl
    · have hb : (!sign_flag c.flag) = false := hcond
      show execCcc c (!sign_flag c.flag) = _
      rw [hb]
      rfl
    · have hb : (sign_flag c.flag) = false := hcond
      show execCcc c (sign_flag c.flag) = _
      rw [hb]
      rfl
  · fin_cases hop
    · have hb : (!zero_flag c.flag) = false := hcond
      show execRcc c (!zero_flag c.flag) = _
      rw [hb]
      rfl
    · have hb : (zero_flag c.flag) = false := hcond
      show execRcc c (zero_flag c.flag) = _
      rw [hb]
      rfl
    · have hb : (!carry_flag c.flag) = false := hcond
      show execRcc c (!carry_flag c.flag) = _
      rw [hb]
      rfl
    · have hb : (carry_flag c.flag) = false := hcond
      show execRcc c (carry_flag c.flag) = _
      rw [hb]
      rfl
    · have hb : (!parity_flag c.flag) = false := hcond
      show execRcc c (!parity_flag c.flag) = _
      rw [hb]
      rfl
    · have hb : (parity_flag c.flag) = false := hcond
      show execRcc c (parity_flag c.flag) = _
      rw [hb]
      rfl
    · have hb : (!sign_flag c.flag) = false := hcond
      show execRcc c (!sign_flag c.flag) = _
      rw [hb]
      rfl
    · have hb : (sign_flag c.flag) = false := hcond
      show execRcc c (sign_flag c.flag) = _
      rw [hb]
      rfl

/-- C9 witness: JZ with the zero flag clear only bumps PC by 3. -/
theorem cond_false_frame_witness :
    execute cexRal 0xCA = { cexRal with pc := u16 (cexRal.pc + 3) } :=
  (cond_false_frame cexRal 0xCA).1 (by decide) (by decide)

/-! Interrupted-flag projections through the helpers and every execute arm. -/

@[simp] theorem stack_push_u8_interrupted (c : CPU) (v : Nat) :
    (c.stack_push_u8 v).interrupted = c.interrupted := by
  simp [CPU.stack_push_u8]

@[simp] theorem stack_push_interrupted (c : CPU) (v : Nat) :
    (c.stack_push v).interrupted = c.interrupted := by
  simp [CPU.stack_push]

@[simp] theorem stack_pop_u8_interrupted (c : CPU) :
    c.stack_pop_u8.2.interrupted = c.interrupted := by
  simp [CPU.stack_pop_u8]

@[simp] theorem stack_pop_interrupted (c : CPU) :
    c.stack_pop.2.interrupted = c.interrupted := by
  simp [CPU.stack_pop]

@[simp] theorem op_call_interrupted (c : CPU) :
    c.op_call.interrupted = c.interrupted := by
  simp [CPU.op_call]

@[simp] theorem op_return_interrupted (c : CPU) :
    c.op_return.interrupted = c.interrupted := by
  simp [CPU.op_return]

@[simp] theorem set_jump_pc_interrupted (c : CPU) :
    c.set_jump_pc.interrupted = c.interrupted := by
  simp [CPU.set_jump_pc]

@[simp] theorem execSTAX_interrupted (c : CPU) (op : Nat) :
    (execSTAX c op).interrupted = c.interrupted := by
  simp only [execSTAX]
  all_goals
    first
    | ((repeat' split) <;> simp)
    | simp

@[simp] theorem execSTA_interrupted (c : CPU) :
    (execSTA c).interrupted = c.interrupted := by
  simp only [execSTA]
  all_goals
    first
    | ((repeat' split) <;> simp)
    | simp

@[simp] theorem execLDAX_interrupted (c : CPU) (op : Nat) :
    (execLDAX c op).interrupted = c.interrupted := by
  simp only [execLDAX]
  all_goals
    first
    | ((repeat' split) <;> simp)
    | simp

@[simp] theorem execLDA_interrupted (c : CPU) :
    (execLDA c).interrupted = c.interrupted := by
  simp only [execLDA]
  all_goals
    first
    | ((repeat' split) <;> simp)
    | simp

@[simp] theorem execRLC_interrupted (c : CPU) :
    (execRLC c).interrupted = c.interrupted := by
  simp only [execRLC]
  all_goals
    first
    | ((repeat' split) <;> simp)
    | simp

@[simp] theorem execRRC_interrupted (c : CPU) :
    (execRRC c).interrupted = c.interrupted := by
  simp only [execRRC]
  all_goals
    first
    | ((repeat' split) <;> simp)
    | simp

@[simp] theorem execRAL_interrupted (c : CPU) :
    (execRAL c).interrupted = c.interrupted := by
  simp only [execRAL]
  all_goals
    first
    | ((repeat' split) <;> simp)
    | simp

@[simp] theorem execRAR_interrupted (c : CPU) :
    (execRAR c).interrupted = c.interrupted := by
  simp only [execRAR]
  all_goals
    first
    | ((repeat' split) <;> simp)
    | simp

@[simp] theorem execCMA_interrupted (c : CPU) :
    (execCMA c).interrupted = c.interrupted := by
  simp only [execCMA]
  all_goals
    first
    | ((repeat' split) <;> simp)
    | simp

@[simp] theorem execCMC_interrupted (c : CPU) :
    (execCMC c).interrupted = c.interrupted := by
  simp only [execCMC]
  all_goals
    first
    | ((repeat' split) <;> simp)
    | simp

@[simp] theorem execSTC_interrupted (c : CPU) :
    (execSTC c).interrupted = c.interrupted := by
  simp only [execSTC]
  all_goals
    first
    | ((repeat' split) <;> simp)
    | simp

@[simp] theorem execIN_interrupted (c : CPU) :
    (execIN c).interrupted = c.interrupted := by
  simp only [execIN]
  all_goals
    first
    | ((repeat' split) <;> simp)
    | simp

@[simp] theorem execOUT_interrupted (c : CPU) :
    (execOUT c).interrupted = c.interrupted := by
  simp only [execOUT]
  all_goals
    first
    | ((repeat' split) <;> simp)
    | simp

@[simp] theorem execSPHL_interrupted (c : CPU) :
    (execSPHL c).interrupted = c.interrupted := by
  simp only [execSPHL]
  all_goals
    first
    | ((repeat' split) <;> simp)
    | simp

@[simp] theorem execHLT_interrupted (c : CPU) :
    (execHLT c).interrupted = c.interrupted := by
  simp only [execHLT]
  all_goals
    first
    | ((repeat' split) <;> simp)
    | simp

@[simp] theorem execSHLD_interrupted (c : CPU) :
    (execSHLD c).interrupted = c.interrupted := by
  simp only [execSHLD]
  all_goals
    first
    | ((repeat' split) <;> simp)
    | simp

@[simp] theorem execLHLD_interrupted (c : CPU) :
    (execLHLD c).interrupted = c.interrupted := by
  simp only [execLHLD]
  all_goals
    first
    | ((repeat' split) <;> simp)
    | simp

@[simp] theorem execRST_interrupted (c : CPU) (op : Nat) :
    (execRST c op).interrupted = c.interrupted := by
  simp only [execRST]
  all_goals
    first
    | ((repeat' split) <;> simp)
    | simp

@[simp] theorem execXCHG_interrupted (c : CPU) :
    (execXCHG c).interrupted = c.interrupted := by
  simp only [execXCHG]
  all_goals
    first
    | ((repeat' split) <;> simp)
    | simp

@[simp] theorem execXTHL_interrupted (c : CPU) :
    (execXTHL c).interrupted = c.interrupted := by
  simp only [execXTHL]
  all_goals
    first
    | ((repeat' split) <;> simp)
    | simp

@[simp] theorem execADI_interrupted (c : CPU) :
    (execADI c).interrupted = c.interrupted := by
  simp only [execADI]
  all_goals
    first
    | ((repeat' split) <;> simp)
    | simp

@[simp] theorem execACI_interrupted (c : CPU) :
    (execACI c).interrupted = c.interrupted := by
  simp only [execACI]
  all_goals
    first
    | ((repeat' split) <;> simp)
    | simp

@[simp] theorem execSUI_interrupted (c : CPU) :
    (execSUI c).interrupted = c.interrupted := by
  simp only [execSUI]
  all_goals
    first
    | ((repeat' split) <;> simp)
    | simp

@[simp] theorem execSBI_interrupted (c : CPU) :
    (execSBI c).interrupted = c.interrupted := by
  simp only [execSBI]
  all_goals
    first
    | ((repeat' split) <;> simp)
    | simp

@[simp] theorem execANI_interrupted (c : CPU) :
    (execANI c).interrupted = c.interrupted := by
  simp only [execANI]
  all_goals
    first
    | ((repeat' split) <;> simp)
    | simp

@[simp] theorem execXRI_interrupted (c : CPU) :
    (execXRI c).interrupted = c.interrupted := by
  simp only [execXRI]
  all_goals
    first
    | ((repeat' split) <;> simp)
    | simp

@[simp] theorem execORI_interrupted (c : CPU) :
    (execORI c).interrupted = c.interrupted := by
  simp only [execORI]
  all_goals
    first
    | ((repeat' split) <;> simp)
    | simp

@[simp] theorem execCPI_interrupted (c : CPU) :
    (execCPI c).interrupted = c.interrupted := by
  simp only [execCPI]
  all_goals
    first
    | ((repeat' split) <;> simp)
    | simp

@[simp] theorem execJMP_interrupted (c : CPU) :
    (execJMP c).interrupted = c.interrupted := by
  simp only [execJMP]
  all_goals
    first
    | ((repeat' split) <;> simp)
    | simp

@[simp] theorem execCALLu_interrupted (c : CPU) :
    (execCALLu c).interrupted = c.interrupted := by
  simp only [execCALLu]
  all_goals
    first
    | ((repeat' split) <;> simp)
    | simp

@[simp] theorem execRET_interrupted (c : CPU) :
    (execRET c).interrupted = c.interrupted := by
  simp only [execRET]
  all_goals
    first
    | ((repeat' split) <;> simp)
    | simp

@[simp] theorem execLXI_interrupted (c : CPU) (op : Nat) :
    (execLXI c op).interrupted = c.interrupted := by
  simp only [execLXI]
  all_goals
    first
    | ((repeat' split) <;> simp)
    | simp

@[simp] theorem execINX_interrupted (c : CPU) (op : Nat) :
    (execINX c op).interrupted = c.interrupted := by
  simp only [execINX]
  all_goals
    first
    | ((repeat' split) <;> simp)
    | simp

@[simp] theorem execDCX_interrupted (c : CPU) (op : Nat) :
    (execDCX c op).interrupted = c.interrupted := by
  simp only [execDCX]
  all_goals
    first
    | ((repeat' split) <;> simp)
    | simp

@[simp] theorem execINR_interrupted (c : CPU) (op : Nat) :
    (execINR c op).interrupted = c.interrupted := by
  simp only [execINR]
  all_goals
    first
    | ((repeat' split) <;> simp)
    | simp

@[simp] theorem execDCR_interrupted (c : CPU) (op : Nat) :
    (execDCR c op).interrupted = c.interrupted := by
  simp only [execDCR]
  all_goals
    first
    | ((repeat' split) <;> simp)
    | simp

@[simp] theorem execMVI_interrupted (c : CPU) (op : Nat) :
    (execMVI c op).interrupted = c.interrupted := by
  simp only [execMVI]
  all_goals
    first
    | ((repeat' split) <;> simp)
    | simp

@[simp] theorem execDAA_interrupted (c : CPU) :
    (execDAA c).interrupted = c.interrupted := by
  simp only [execDAA]
  all_goals
    first
    | ((repeat' split) <;> simp)
    | simp

@[simp] theorem execDAD_interrupted (c : CPU) (op : Nat) :
    (execDAD c op).interrupted = c.interrupted := by
  simp only [execDAD]
  all_goals
    first
    | ((repeat' split) <;> simp)
    | simp

@[simp] theorem execPUSH_interrupted (c : CPU) (op : Nat) :
    (execPUSH c op).interrupted = c.interrupted := by
  simp only [execPUSH]
  all_goals
    first
    | ((repeat' split) <;> simp)
    | simp

@[simp] theorem execPOP_interrupted (c : CPU) (op : Nat) :
    (execPOP c op).interrupted = c.interrupted := by
  simp only [execPOP]
  all_goals
    first
    | ((repeat' split) <;> simp)
    | simp

@[simp] theorem execJcc_interrupted (c : CPU) (b : Bool) :
    (execJcc c b).interrupted = c.interrupted := by
  simp only [execJcc]
  all_goals
    first
    | ((repeat' split) <;> simp)
    | simp

@[simp] theorem execCcc_interrupted (c : CPU) (b : Bool) :
    (execCcc c b).interrupted = c.interrupted := by
  simp only [execCcc]
  all_goals
    first
    | ((repeat' split) <;> simp)
    | simp

@[simp] theorem execRcc_interrupted (c : CPU) (b : Bool) :
    (execRcc c b).interrupted = c.interrupted := by
  simp only [execRcc]
  all_goals
    first
    | ((repeat' split) <;> simp)
    | simp

@[simp] theorem movStep_interrupted (c : CPU) (op : Nat) :
    (movStep c op).interrupted = c.interrupted := by
  simp only [movStep]
  all_goals
    first
    | ((repeat' split) <;> simp)
    | simp

@[simp] theorem aluStep_interrupted (c : CPU) (op : Nat) :
    (aluStep c op).interrupted = c.interrupted := by
  simp only [aluStep]
  all_goals
    first
    | ((repeat' split) <;> simp)
    | simp

@[simp] theorem execOther_interrupted (c : CPU) (op : Nat) :
    (execOther c op).interrupted = c.interrupted := by
  simp [execOther, movStep_interrupted, aluStep_interrupted]

@[simp] theorem execEI_interrupted (c : CPU) : (execEI c).interrupted = true := by
  simp [execEI]

@[simp] theorem execDI_interrupted (c : CPU) : (execDI c).interrupted = false := by
  simp [execDI]

@[simp] theorem handle_interrupt_interrupted (c : CPU) :
    c.handle_interrupt.interrupted = false := by
  unfold CPU.handle_interrupt
  split
  · simp
  · simp_all

set_option maxHeartbeats 1600000 in
/-- C10: after every `run_once` the `interrupted` flag is false (the
interrupt epilogue always leaves it cleared); `send_interrupt` only stores
the vector; and the only instruction that can turn `interrupted` on is EI
(opcode 0xFB). -/
theorem run_once_clears_interrupted (c : CPU) (v : Nat) :
    (CPU.run_once c).interrupted = false ∧
      CPU.send_interrupt c v = { c with interrupted_addr := v } ∧
      (∀ op, (execute c op).interrupted = true → c.interrupted = true ∨ op = 0xFB) := by
  refine ⟨?_, rfl, ?_⟩
  · unfold CPU.run_once
    split <;> simp
  · intro op h
    unfold execute at h
    split at h
    all_goals
      first
      | exact Or.inr rfl
      | exact Or.inl (by simpa using h)
      | exact absurd h (by simp)

/-- C10 witness: a NOP step of a concrete machine ends with `interrupted`
false, and the EI case of the disjunction is exercised. -/
theorem run_once_clears_interrupted_witness :
    (CPU.run_once cexRal).interrupted = false ∧
      (cexRal.interrupted = true ∨ (0xFB : Nat) = 0xFB) :=
  ⟨(run_once_clears_interrupted cexRal 0).1,
    (run_once_clears_interrupted cexRal 0).2.2 0xFB (by decide)⟩

/-- Concrete halted machine with an enabled pending interrupt. -/
def cexHalt : CPU :=
  { flag := 2, registers := fun _ => 0, acc := 0, sp := 8, pc := 5,
    data := fun _ => 0, interrupted := true, interrupted_addr := 3, halted := true }

/-- C5 counterexample: the claim says acknowledging an interrupt clears the
halted flag so a halted CPU resumes.  On this halted machine the step
acknowledges the interrupt (PC is vectored) yet `halted` stays true, and the
following step does nothing at all. -/
theorem halted_not_cleared_cex :
    cexHalt.halted = true ∧ cexHalt.interrupted = true ∧
      (CPU.run_once cexHalt).halted = true ∧
      (CPU.run_once cexHalt).pc = cexHalt.interrupted_addr := by
  decide

/-- C5 amended: when `interrupted` is true at the interrupt-handling point,
the CPU pushes the current PC (high byte at sp-1, low byte at sp-2), clears
`interrupted`, and vectors PC to `interrupted_addr`; everything else,
including the halted flag, which is NOT cleared, is unchanged, so a halted
CPU stays halted.  `run_once` runs exactly this handler, alone when halted
and after the executed instruction otherwise. -/
theorem interrupt_ack_amended (c : CPU) :
    (c.interrupted = true →
      c.handle_interrupt.interrupted = false ∧
        c.handle_interrupt.pc = c.interrupted_addr ∧
        c.handle_interrupt.halted = c.halted ∧
        c.handle_interrupt.sp = u16 (c.sp + 65534) ∧
        c.handle_interrupt.data (u16 (c.sp + 65534)) = c.pc &&& 0xFF ∧
        c.handle_interrupt.data (u16 (c.sp + 65535)) = (c.pc &&& 0xFF00) >>> 8 ∧
        (∀ a, a ≠ u16 (c.sp + 65534) → a ≠ u16 (c.sp + 65535) →
          c.handle_interrupt.data a = c.data a) ∧
        c.handle_interrupt.acc = c.acc ∧
        c.handle_interrupt.registers = c.registers ∧
        c.handle_interrupt.flag = c.flag) ∧
    (c.halted = true → c.run_once = c.handle_interrupt) ∧
    (c.halted = false → c.run_once = (execute c (c.data c.pc)).handle_interrupt) := by
  have hne : u16 (c.sp + 65535) ≠ u16 (c.sp + 65534) := by
    unfold u16
    omega
  refine ⟨fun h => ?_, fun h => ?_, fun h => ?_⟩
  · unfold CPU.handle_interrupt
    rw [if_pos h]
    simp only [stack_push_eq]
    refine ⟨by simp, by simp, by simp, by simp, by simp [updf],
      by simp [updf, hne], ?_, by simp, by simp, by simp⟩
    intro a h1 h2
    simp [updf, h1, h2]
  · unfold CPU.run_once
    rw [if_pos h]
  · unfold CPU.run_once
    rw [if_neg (by rw [h]; exact Bool.false_ne_true)]

/-- C5 witness: the amended statement evaluated on the halted machine
`cexHalt`. -/
theorem interrupt_ack_amended_witness :
    (CPU.handle_interrupt cexHalt).interrupted = false ∧
      (CPU.handle_interrupt cexHalt).pc = cexHalt.interrupted_addr ∧
      (CPU.handle_interrupt cexHalt).halted = cexHalt.halted ∧
      CPU.run_once cexHalt = CPU.handle_interrupt cexHalt := by
  have h := interrupt_ack_amended cexHalt
  exact ⟨(h.1 rfl).1, (h.1 rfl).2.1, (h.1 rfl).2.2.1, h.2.1 rfl⟩


/-- Reassembling the two stacked bytes of a 16-bit value restores it. -/
theorem compose_decompose (x : Nat) (hx : x < 65536) :
    compose_to_u16 ((x &&& 0xFF00) >>> 8) (x &&& 0xFF) = x := by
  have h255 : x &&& 255 = x % 256 := by
    have h := Nat.and_pow_two_sub_one_eq_mod x 8
    norm_num at h
    exact h
  have hhigh : (x &&& 0xFF00) >>> 8 = x / 256 := by
    have h1 : (x &&& 0xFF00) >>> 8 = (x >>> 8) % 256 := by
      apply Nat.eq_of_testBit_eq
      intro i
      rw [show (0xFF00 : Nat) = 255 <<< 8 from by decide,
        show (256 : Nat) = 2 ^ 8 from by decide,
        show (255 : Nat) = 2 ^ 8 - 1 from by decide]
      simp only [Nat.testBit_shiftRight, Nat.testBit_and, Nat.testBit_shiftLeft,
        Nat.testBit_mod_two_pow, Nat.testBit_two_pow_sub_one]
      have h8 : 8 ≤ 8 + i := Nat.le_add_right 8 i
      simp [h8, Bool.and_comm]
    rw [h1, Nat.shiftRight_eq_div_pow]
    norm_num
    omega
  rw [compose_to_u16, h255, hhigh, Nat.shiftLeft_eq]
  have hlt : x % 256 < 2 ^ 8 := by
    have := Nat.mod_lt x (y := 256) (by omega)
    norm_num
    omega
  rw [show x / 256 * 2 ^ 8 = 2 ^ 8 * (x / 256) from by ring]
  rw [← Nat.mul_add_lt_is_or hlt]
  have := Nat.div_add_mod x 256
  norm_num
  omega

/-- C8: a CALL whose target holds a RET opcode, with the two pushed stack
bytes clobbering neither the CALL operands nor the RET opcode, returns to
the instruction after the CALL and restores SP. -/
theorem call_ret_roundtrip (c : CPU)
    (hsp : c.sp < 65536) (hpc : c.pc + 3 < 65536)
    (hCD : c.data c.pc = 0xCD)
    (ha1 : u16 (c.sp + 65535) ≠ c.pc + 1) (ha2 : u16 (c.sp + 65535) ≠ c.pc + 2)
    (hb1 : u16 (c.sp + 65534) ≠ c.pc + 1) (hb2 : u16 (c.sp + 65534) ≠ c.pc + 2)
    (hret : c.data (compose_to_u16 (c.data (c.pc + 2)) (c.data (c.pc + 1))) = 0xC9)
    (ht1 : u16 (c.sp + 65535) ≠ compose_to_u16 (c.data (c.pc + 2)) (c.data (c.pc + 1)))
    (ht2 : u16 (c.sp + 65534) ≠ compose_to_u16 (c.data (c.pc + 2)) (c.data (c.pc + 1))) :
    c.step.step.pc = c.pc + 3 ∧ c.step.step.sp = c.sp := by
  have hu : u16 (c.pc + 3) = c.pc + 3 := Nat.mod_eq_of_lt hpc
  have hstep1 : c.step = execCALLu c := by
    unfold CPU.step
    rw [hCD]
    rfl
  have h2 : execCALLu c =
      { c with pc := compose_to_u16 (c.data (c.pc + 2)) (c.data (c.pc + 1)),
               sp := u16 (c.sp + 65534),
               data := updf (updf c.data (u16 (c.sp + 65535)) (((c.pc + 3) &&& 0xFF00) >>> 8))
                 (u16 (c.sp + 65534)) ((c.pc + 3) &&& 0xFF) } := by
    unfold execCALLu CPU.op_call
    simp only [stack_push_eq]
    rw [hu]
    have e1 : c.pc + 3 - 1 = c.pc + 2 := by omega
    have e2 : c.pc + 3 - 2 = c.pc + 1 := by omega
    rw [e1, e2]
    simp [updf, Ne.symm ha1, Ne.symm ha2, Ne.symm hb1, Ne.symm hb2]
  have hexecRET : ∀ d : CPU, execute d 0xC9 = execRET d := fun _ => rfl
  have hne : u16 (c.sp + 65534) ≠ u16 (c.sp + 65535) := by
    unfold u16
    omega
  have hsucc : u16 (u16 (c.sp + 65534) + 1) = u16 (c.sp + 65535) := by
    unfold u16
    omega
  rw [hstep1, h2]
  unfold CPU.step
  simp only []
  rw [show (updf (updf c.data (u16 (c.sp + 65535)) (((c.pc + 3) &&& 0xFF00) >>> 8))
      (u16 (c.sp + 65534)) ((c.pc + 3) &&& 0xFF))
      (compose_to_u16 (c.data (c.pc + 2)) (c.data (c.pc + 1))) = 0xC9 from by
    simp [updf, Ne.symm ht1, Ne.symm ht2]
    exact hret]
  rw [hexecRET]
  unfold execRET CPU.op_return CPU.stack_pop CPU.stack_pop_u8
  simp only [updf, hsucc]
  constructor
  · simp [hne, Ne.symm hne, compose_decompose (c.pc + 3) hpc]
  · show u16 (u16 (c.sp + 65535) + 1) = c.sp
    unfold u16
    omega


/-! Flag-byte projections through the helpers and the execute arms. -/

@[simp] theorem stack_push_u8_flag (c : CPU) (v : Nat) :
    (c.stack_push_u8 v).flag = c.flag := by
  simp [CPU.stack_push_u8]

@[simp] theorem stack_push_flag (c : CPU) (v : Nat) :
    (c.stack_push v).flag = c.flag := by
  simp [CPU.stack_push]

@[simp] theorem stack_pop_u8_flag (c : CPU) :
    c.stack_pop_u8.2.flag = c.flag := by
  simp [CPU.stack_pop_u8]

@[simp] theorem stack_pop_flag (c : CPU) :
    c.stack_pop.2.flag = c.flag := by
  simp [CPU.stack_pop]

@[simp] theorem op_call_flag (c : CPU) :
    c.op_call.flag = c.flag := by
  simp [CPU.op_call]

@[simp] theorem op_return_flag (c : CPU) :
    c.op_return.flag = c.flag := by
  simp [CPU.op_return]

@[simp] theorem set_jump_pc_flag (c : CPU) :
    c.set_jump_pc.flag = c.flag := by
  simp [CPU.set_jump_pc]

@[simp] theorem execLXI_flag (c : CPU) (op : Nat) :
    (execLXI c op).flag = c.flag := by
  simp only [execLXI]
  all_goals
    first
    | ((repeat' split) <;> simp)
    | simp

@[simp] theorem execSTAX_flag (c : CPU) (op : Nat) :
    (execSTAX c op).flag = c.flag := by
  simp only [execSTAX]
  all_goals
    first
    | ((repeat' split) <;> simp)
    | simp

@[simp] theorem execSTA_flag (c : CPU) :
    (execSTA c).flag = c.flag := by
  simp only [execSTA]
  all_goals
    first
    | ((repeat' split) <;> simp)
    | simp

@[simp] theorem execLDAX_flag (c : CPU) (op : Nat) :
    (execLDAX c op).flag = c.flag := by
  simp only [execLDAX]
  all_goals
    first
    | ((repeat' split) <;> simp)
    | simp

@[simp] theorem execLDA_flag (c : CPU) :
    (execLDA c).flag = c.flag := by
  simp only [execLDA]
  all_goals
    first
    | ((repeat' split) <;> simp)
    | simp

@[simp] theorem execINX_flag (c : CPU) (op : Nat) :
    (execINX c op).flag = c.flag := by
  simp only [execINX]
  all_goals
    first
    | ((repeat' split) <;> simp)
    | simp

@[simp] theorem execDCX_flag (c : CPU) (op : Nat) :
    (execDCX c op).flag = c.flag := by
  simp only [execDCX]
  all_goals
    first
    | ((repeat' split) <;> simp)
    | simp

@[simp] theorem execMVI_flag (c : CPU) (op : Nat) :
    (execMVI c op).flag = c.flag := by
  simp only [execMVI]
  all_goals
    first
    | ((repeat' split) <;> simp)
    | simp

@[simp] theorem execCMA_flag (c : CPU) :
    (execCMA c).flag = c.flag := by
  simp only [execCMA]
  all_goals
    first
    | ((repeat' split) <;> simp)
    | simp

@[simp] theorem execIN_flag (c : CPU) :
    (execIN c).flag = c.flag := by
  simp only [execIN]
  all_goals
    first
    | ((repeat' split) <;> simp)
    | simp

@[simp] theorem execOUT_flag (c : CPU) :
    (execOUT c).flag = c.flag := by
  simp only [execOUT]
  all_goals
    first
    | ((repeat' split) <;> simp)
    | simp

@[simp] theorem execHLT_flag (c : CPU) :
    (execHLT c).flag = c.flag := by
  simp only [execHLT]
  all_goals
    first
    | ((repeat' split) <;> simp)
    | simp

@[simp] theorem execEI_flag (c : CPU) :
    (execEI c).flag = c.flag := by
  simp only [execEI]
  all_goals
    first
    | ((repeat' split) <;> simp)
    | simp

@[simp] theorem execDI_flag (c : CPU) :
    (execDI c).flag = c.flag := by
  simp only [execDI]
  all_goals
    first
    | ((repeat' split) <;> simp)
    | simp

@[simp] theorem execRST_flag (c : CPU) (op : Nat) :
    (execRST c op).flag = c.flag := by
  simp only [execRST]
  all_goals
    first
    | ((repeat' split) <;> simp)
    | simp

@[simp] theorem execXCHG_flag (c : CPU) :
    (execXCHG c).flag = c.flag := by
  simp only [execXCHG]
  all_goals
    first
    | ((repeat' split) <;> simp)
    | simp

@[simp] theorem execXTHL_flag (c : CPU) :
    (execXTHL c).flag = c.flag := by
  simp only [execXTHL]
  all_goals
    first
    | ((repeat' split) <;> simp)
    | simp

@[simp] theorem execSPHL_flag (c : CPU) :
    (execSPHL c).flag = c.flag := by
  simp only [execSPHL]
  all_goals
    first
    | ((repeat' split) <;> simp)
    | simp

@[simp] theorem execSHLD_flag (c : CPU) :
    (execSHLD c).flag = c.flag := by
  simp only [execSHLD]
  all_goals
    first
    | ((repeat' split) <;> simp)
    | simp

@[simp] theorem execLHLD_flag (c : CPU) :
    (execLHLD c).flag = c.flag := by
  simp only [execLHLD]
  all_goals
    first
    | ((repeat' split) <;> simp)
    | simp

@[simp] theorem execJMP_flag (c : CPU) :
    (execJMP c).flag = c.flag := by
  simp only [execJMP]
  all_goals
    first
    | ((repeat' split) <;> simp)
    | simp

@[simp] theorem execJcc_flag (c : CPU) (b : Bool) :
    (execJcc c b).flag = c.flag := by
  simp only [execJcc]
  all_goals
    first
    | ((repeat' split) <;> simp)
    | simp

@[simp] theorem execCcc_flag (c : CPU) (b : Bool) :
    (execCcc c b).flag = c.flag := by
  simp only [execCcc]
  all_goals
    first
    | ((repeat' split) <;> simp)
    | simp

@[simp] theorem execCALLu_flag (c : CPU) :
    (execCALLu c).flag = c.flag := by
  simp only [execCALLu]
  all_goals
    first
    | ((repeat' split) <;> simp)
    | simp

@[simp] theorem execRET_flag (c : CPU) :
    (execRET c).flag = c.flag := by
  simp only [execRET]
  all_goals
    first
    | ((repeat' split) <;> simp)
    | simp

@[simp] theorem execRcc_flag (c : CPU) (b : Bool) :
    (execRcc c b).flag = c.flag := by
  simp only [execRcc]
  all_goals
    first
    | ((repeat' split) <;> simp)
    | simp

@[simp] theorem execPUSH_flag (c : CPU) (op : Nat) :
    (execPUSH c op).flag = c.flag := by
  simp only [execPUSH]
  all_goals
    first
    | ((repeat' split) <;> simp)
    | simp

@[simp] theorem movStep_flag (c : CPU) (op : Nat) :
    (movStep c op).flag = c.flag := by
  simp only [movStep]
  all_goals
    first
    | ((repeat' split) <;> simp)
    | simp

theorem flagOk_execRLC (c : CPU) :
    flagOk (execRLC c).flag ↔ flagOk c.flag := by
  simp only [execRLC]
  all_goals
    first
    | ((repeat' split) <;> simp)
    | simp

theorem flagOk_execRRC (c : CPU) :
    flagOk (execRRC c).flag ↔ flagOk c.flag := by
  simp only [execRRC]
  all_goals
    first
    | ((repeat' split) <;> simp)
    | simp

theorem flagOk_execRAL (c : CPU) :
    flagOk (execRAL c).flag ↔ flagOk c.flag := by
  simp only [execRAL]
  all_goals
    first
    | ((repeat' split) <;> simp)
    | simp

theorem flagOk_execRAR (c : CPU) :
    flagOk (execRAR c).flag ↔ flagOk c.flag := by
  simp only [execRAR]
  all_goals
    first
    | ((repeat' split) <;> simp)
    | simp

theorem flagOk_execCMC (c : CPU) :
    flagOk (execCMC c).flag ↔ flagOk c.flag := by
  simp only [execCMC]
  all_goals
    first
    | ((repeat' split) <;> simp)
    | simp

theorem flagOk_execSTC (c : CPU) :
    flagOk (execSTC c).flag ↔ flagOk c.flag := by
  simp only [execSTC]
  all_goals
    first
    | ((repeat' split) <;> simp)
    | simp

theorem flagOk_execDAA (c : CPU) :
    flagOk (execDAA c).flag ↔ flagOk c.flag := by
  simp only [execDAA]
  all_goals
    first
    | ((repeat' split) <;> simp)
    | simp

theorem flagOk_execDAD (c : CPU) (op : Nat) :
    flagOk (execDAD c op).flag ↔ flagOk c.flag := by
  simp only [execDAD]
  all_goals
    first
    | ((repeat' split) <;> simp)
    | simp

theorem flagOk_execINR (c : CPU) (op : Nat) :
    flagOk (execINR c op).flag ↔ flagOk c.flag := by
  simp only [execINR]
  all_goals
    first
    | ((repeat' split) <;> simp)
    | simp

theorem flagOk_execDCR (c : CPU) (op : Nat) :
    flagOk (execDCR c op).flag ↔ flagOk c.flag := by
  simp only [execDCR]
  all_goals
    first
    | ((repeat' split) <;> simp)
    | simp

theorem flagOk_execADI (c : CPU) :
    flagOk (execADI c).flag ↔ flagOk c.flag := by
  simp only [execADI]
  all_goals
    first
    | ((repeat' split) <;> simp)
    | simp

theorem flagOk_execACI (c : CPU) :
    flagOk (execACI c).flag ↔ flagOk c.flag := by
  simp only [execACI]
  all_goals
    first
    | ((repeat' split) <;> simp)
    | simp

theorem flagOk_execSUI (c : CPU) :
    flagOk (execSUI c).flag ↔ flagOk c.flag := by
  simp only [execSUI]
  all_goals
    first
    | ((repeat' split) <;> simp)
    | simp

theorem flagOk_execSBI (c : CPU) :
    flagOk (execSBI c).flag ↔ flagOk c.flag := by
  simp only [execSBI]
  all_goals
    first
    | ((repeat' split) <;> simp)
    | simp

theorem flagOk_execANI (c : CPU) :
    flagOk (execANI c).flag ↔ flagOk c.flag := by
  simp only [execANI]
  all_goals
    first
    | ((repeat' split) <;> simp)
    | simp

theorem flagOk_execXRI (c : CPU) :
    flagOk (execXRI c).flag ↔ flagOk c.flag := by
  simp only [execXRI]
  all_goals
    first
    | ((repeat' split) <;> simp)
    | simp

theorem flagOk_execORI (c : CPU) :
    flagOk (execORI c).flag ↔ flagOk c.flag := by
  simp only [execORI]
  all_goals
    first
    | ((repeat' split) <;> simp)
    | simp

theorem flagOk_execCPI (c : CPU) :
    flagOk (execCPI c).flag ↔ flagOk c.flag := by
  simp only [execCPI]
  all_goals
    first
    | ((repeat' split) <;> simp)
    | simp

theorem flagOk_aluStep (c : CPU) (op : Nat) :
    flagOk (aluStep c op).flag ↔ flagOk c.flag := by
  simp only [aluStep]
  all_goals
    first
    | ((repeat' split) <;> simp)
    | simp

theorem flagOk_execOther (c : CPU) (op : Nat) :
    flagOk (execOther c op).flag ↔ flagOk c.flag := by
  unfold execOther
  rw [flagOk_aluStep]
  simp

set_option maxHeartbeats 1600000 in
/-- C6 amended: every instruction other than POP PSW preserves the fixed
flag-bit layout (bit 1 = 1, bits 3 and 5 = 0), because all flag writes go
through the masked setters; POP PSW instead installs the raw stacked byte as
the complete flag word. -/
theorem flag_fixed_bits (c : CPU) (op : Nat) :
    (op ≠ 0xF1 → flagOk c.flag → flagOk (execute c op).flag) ∧
      (execute c 0xF1).flag = c.data c.sp := by
  constructor
  · intro hne hok
    unfold execute
    split
    all_goals
      first
      | exact absurd rfl hne
      | (simp [hok, flagOk_execRLC, flagOk_execRRC, flagOk_execRAL, flagOk_execRAR,
          flagOk_execCMC, flagOk_execSTC, flagOk_execDAA, flagOk_execDAD, flagOk_execINR,
          flagOk_execDCR, flagOk_execADI, flagOk_execACI, flagOk_execSUI, flagOk_execSBI,
          flagOk_execANI, flagOk_execXRI, flagOk_execORI, flagOk_execCPI, flagOk_execOther,
          execPOP, CPU.stack_pop_u8, show (12 : Nat) &&& 3 = 0 from rfl,
          show (13 : Nat) &&& 3 = 1 from rfl, show (14 : Nat) &&& 3 = 2 from rfl,
          show (15 : Nat) &&& 3 = 3 from rfl])
  · rw [show execute c 0xF1 = execPOP c 0xF1 from rfl]
    simp [execPOP, CPU.stack_pop_u8, show (15 : Nat) &&& 3 = 3 from rfl]


/-- Concrete machine from the repository CALL test, with the RET placed at
the call target. -/
def cexCall : CPU :=
  { flag := 2, registers := fun _ => 0, acc := 0, sp := 10, pc := 0,
    data := fun a => if a = 0 then 0xCD else if a = 1 then 5 else if a = 5 then 0xC9 else 0,
    interrupted := false, interrupted_addr := 0, halted := false }

/-- C8 witness: the CALL/RET round trip evaluated on `cexCall`. -/
theorem call_ret_roundtrip_witness :
    cexCall.step.step.pc = cexCall.pc + 3 ∧ cexCall.step.step.sp = cexCall.sp :=
  call_ret_roundtrip cexCall (by decide) (by decide) (by decide) (by decide) (by decide)
    (by decide) (by decide) (by decide) (by decide) (by decide)

/-- Machine about to execute POP PSW with a zero byte on the stack. -/
def cexPop : CPU :=
  { flag := 2, registers := fun _ => 0, acc := 0, sp := 2, pc := 0,
    data := fun a => if a = 0 then 0xF1 else 0,
    interrupted := false, interrupted_addr := 0, halted := false }

/-- C6 counterexample: the claim says bit 1 of the flag word reads as 1
after every instruction, POP PSW with an arbitrary stacked byte included.
Popping a zero byte into PSW leaves the whole flag word zero, so bit 1
reads 0. -/
theorem pop_psw_fixed_bits_cex :
    (execute cexPop 0xF1).flag = 0 ∧ (execute cexPop 0xF1).flag.testBit 1 = false := by
  decide

/-- C6 witness: the amended statement evaluated on `cexPop` with NOP, whose
initial flag word satisfies the fixed-bit layout. -/
theorem flag_fixed_bits_witness :
    flagOk (execute cexPop 0x00).flag :=
  (flag_fixed_bits cexPop 0x00).1 (by decide) (by unfold flagOk; decide)

end Intel8080
